import Mathlib

/-!
Verification of the node-voicevox-core-dynamic binding layer.

This file gives a shallow embedding of the repository's marshaling and
resource-lifecycle code and proves properties of it.  Native entry points
are modelled by an oracle environment (`NativeEnv`); the observable effects
of the wrappers (native invocations, buffer frees, handle deletions, the
option records passed to the native layer) are threaded through an explicit
journal state (`NativeState`).  Machine pointers are natural numbers and the
C null pointer is `Option.none`.  The UUID conversion utilities from
`src/utils/memory.ts` / `src/utils/uuid.ts` are embedded as pure functions
on `List Char` and `List Nat`.
-/

namespace Voicevox

/-- Raw native pointer value (nonzero address); `Option Ptr` models a
nullable pointer with `none` as the C null pointer. -/
abbrev Ptr := Nat

/-- An opaque JavaScript value produced by `JSON.parse`; the binding layer
treats parsed payloads as opaque, so the representation is irrelevant and
only the environment's parse/stringify oracles interpret it. -/
abbrev JsValue := String

/-- JavaScript errors thrown by the binding layer: `voicevox` is the
structured `VoicevoxError` carrying `{code, message}` from
`src/errors/voicevox-error.ts`; `plain` is a plain `Error`. -/
inductive JsError where
  | voicevox (code : Int) (message : String)
  | plain (message : String)
  deriving DecidableEq, Repr

/-! ## UUID conversion utilities (`src/utils/memory.ts`, UUID section) -/

/-- The sixteen lowercase hexadecimal digit characters, in value order. -/
def hexDigitChars : List Char :=
  ['0', '1', '2', '3', '4', '5', '6', '7', '8', '9'] ++ ['a', 'b', 'c', 'd', 'e', 'f']

/-- Lowercase hex digit for a value `n < 16`; this is the digit character
JavaScript's `Number.prototype.toString(16)` emits. -/
def hexCharOfDigit (n : Nat) : Char := hexDigitChars.getD n '0'

/-- Embeds `b.toString(16).padStart(2, "0")` for a byte `b < 256`: always exactly
two lowercase hex characters, most significant first. -/
def byteToHex (b : Nat) : List Char := [hexCharOfDigit (b / 16), hexCharOfDigit (b % 16)]

/-- Embeds `uuidBytesToString` from `src/utils/memory.ts`: map each byte to
zero-padded two-digit hex, join, then insert hyphens via
`slice(0,8) / slice(8,12) / slice(12,16) / slice(16,20) / slice(20)`. -/
def uuidBytesToString (bytes : List Nat) : List Char :=
  let hex := (bytes.map byteToHex).flatten
  hex.take 8 ++ '-' :: ((hex.drop 8).take 4) ++ '-' :: ((hex.drop 12).take 4)
    ++ '-' :: ((hex.drop 16).take 4) ++ '-' :: hex.drop 20

/-- Numeric value of one hexadecimal digit character as accepted by
JavaScript `parseInt(_, 16)` (both cases), `none` if not a hex digit. -/
def hexDigitVal (c : Char) : Option Nat :=
  if '0' ≤ c ∧ c ≤ '9' then some (c.toNat - 48)
  else if 'a' ≤ c ∧ c ≤ 'f' then some (c.toNat - 87)
  else if 'A' ≤ c ∧ c ≤ 'F' then some (c.toNat - 55)
  else none

/-- Accumulate the longest prefix of hex digits, as `parseInt` does. -/
def hexAccum (acc : Nat) : List Char → Nat
  | [] => acc
  | c :: rest =>
    match hexDigitVal c with
    | some d => hexAccum (16 * acc + d) rest
    | none => acc

/-- Value of the longest nonempty hex-digit prefix, `none` if the first
character is not a hex digit (`parseInt` returns `NaN` then). -/
def hexVal : List Char → Option Nat
  | [] => none
  | c :: rest =>
    match hexDigitVal c with
    | some d => some (hexAccum d rest)
    | none => none

/-- Strip a leading `0x` / `0X`, which `parseInt(_, 16)` accepts. -/
def strip0x : List Char → List Char
  | '0' :: 'x' :: rest => rest
  | '0' :: 'X' :: rest => rest
  | s => s

/-- JavaScript `parseInt(s, 16)`: skip leading spaces, optional sign,
optional `0x`, then the longest hex-digit prefix; `none` models `NaN`. -/
def parseIntHex16 (s : List Char) : Option Int :=
  let t := s.dropWhile (fun c => c = ' ')
  match t with
  | '-' :: rest => (hexVal (strip0x rest)).map (fun n => -(n : Int))
  | '+' :: rest => (hexVal (strip0x rest)).map (fun n => (n : Int))
  | _ => (hexVal (strip0x t)).map (fun n => (n : Int))

/-- Storing a JavaScript number into a `Uint8Array` slot: `NaN` stores 0,
an integer is taken modulo 2^8. -/
def toUint8 (v : Option Int) : Nat :=
  match v with
  | none => 0
  | some n => (n % 256).toNat

/-- Embeds `uuidStringToBytes` from `src/utils/memory.ts`: remove hyphens, then
for `i < 16` store `parseInt(hex.slice(2*i, 2*i+2), 16)` into byte `i`. -/
def uuidStringToBytes (uuid : List Char) : List Nat :=
  let hex := uuid.filter (fun c => c ≠ '-')
  (List.range 16).map (fun i => toUint8 (parseIntHex16 ((hex.drop (2 * i)).take 2)))

/-- One lowercase hexadecimal digit character. -/
def isLowerHexDigit (c : Char) : Bool := hexDigitChars.contains c

/-- Consume exactly `n` lowercase hex digits, returning the rest. -/
def hexSeg : Nat → List Char → Option (List Char)
  | 0, s => some s
  | _ + 1, [] => none
  | n + 1, c :: rest => if isLowerHexDigit c then hexSeg n rest else none

/-- Consume one hyphen. -/
def expectHyphen : List Char → Option (List Char)
  | '-' :: rest => some rest
  | _ => none

/-- The canonical hyphenated UUID text shape at the managed boundary:
lowercase hex in an `8-4-4-4-12` layout, nothing else. -/
def isCanonicalUuid (s : List Char) : Bool :=
  (do
    let s1 ← hexSeg 8 s
    let s2 ← expectHyphen s1
    let s3 ← hexSeg 4 s2
    let s4 ← expectHyphen s3
    let s5 ← hexSeg 4 s4
    let s6 ← expectHyphen s5
    let s7 ← hexSeg 4 s6
    let s8 ← expectHyphen s7
    let s9 ← hexSeg 12 s8
    if s9.isEmpty then some () else none).isSome

/-! ## String search helper (used to inspect error messages) -/

/-- Predicate `leadMatch pat s` : `pat` occurs at the start of `s`. -/
def leadMatch : List Char → List Char → Bool
  | [], _ => true
  | _ :: _, [] => false
  | p :: ps, c :: cs => p = c && leadMatch ps cs

/-- Predicate `containsSeq s pat` : `pat` occurs contiguously somewhere in `s`. -/
def containsSeq : List Char → List Char → Bool
  | [], pat => leadMatch pat []
  | c :: rest, pat => leadMatch pat (c :: rest) || containsSeq rest pat

/-- Substring test on `String`s. -/
def strContains (s pat : String) : Bool := containsSeq s.data pat.data

/-! ## Option records

Caller-side option objects (`src/types/options.ts`) have every field
optional (`undefined` ↦ `none`); the C-side records passed to the native
layer (`VoicevoxInitializeOptions` etc., `src/ffi/types.ts`) have every
field present. -/

/-- C struct `VoicevoxInitializeOptions`. -/
structure CInitializeOptions where
  acceleration_mode : Int
  cpu_num_threads : Nat
  deriving DecidableEq, Repr

/-- C struct `VoicevoxSynthesisOptions`. -/
structure CSynthesisOptions where
  enable_interrogative_upspeak : Bool
  deriving DecidableEq, Repr

/-- C struct `VoicevoxTtsOptions`. -/
structure CTtsOptions where
  enable_interrogative_upspeak : Bool
  deriving DecidableEq, Repr

/-- C struct `VoicevoxLoadOnnxruntimeOptions`. -/
structure CLoadOnnxruntimeOptions where
  filename : String
  deriving DecidableEq, Repr

/-- Caller-side `InitializeOptions`. -/
structure InitializeOptions where
  accelerationMode : Option Int := none
  cpuNumThreads : Option Nat := none
  deriving DecidableEq, Repr

/-- Caller-side `SynthesisOptions`. -/
structure SynthesisOptions where
  enableInterrogativeUpspeak : Option Bool := none
  deriving DecidableEq, Repr

/-- Caller-side `TtsOptions`. -/
structure TtsOptions where
  enableInterrogativeUpspeak : Option Bool := none
  deriving DecidableEq, Repr

/-- Caller-side `LoadOnnxruntimeOptions`. -/
structure LoadOnnxruntimeOptions where
  filename : Option String := none
  deriving DecidableEq, Repr

/-! ## Native oracle environment

A mock of the loaded native library plus the koffi runtime: each entry
point is a pure oracle giving the result code and the values written to
out-parameters.  Optional entry points (present only in native
`v0.16.4+`) are `Option`-valued, `none` meaning the symbol is absent from
the loaded library.  `decodeCString` / `decodeWavBytes` model
`koffi.decode`, whose failure raises; `parseJson` models `JSON.parse`
(failure raises a `SyntaxError`); `stringifyJson` models
`JSON.stringify`. -/
structure NativeEnv where
  errorMessage : Int → String
  defaultInitializeOptions : CInitializeOptions
  defaultSynthesisOptions : CSynthesisOptions
  defaultTtsOptions : CTtsOptions
  defaultLoadOnnxruntimeOptions : CLoadOnnxruntimeOptions
  onnxruntimeLoadOnce : CLoadOnnxruntimeOptions → Int × Option Ptr
  openJtalkNew : String → Int × Option Ptr
  voiceModelOpen : String → Int × Option Ptr
  synthesizerNew : Ptr → Ptr → CInitializeOptions → Int × Option Ptr
  synthesizerLoadVoiceModel : Ptr → Ptr → Int
  userDictLoad : Ptr → String → Int
  synthesizerCreateAudioQuery : Ptr → String → Nat → Int × Option Ptr
  synthesizerSynthesis : Ptr → String → Nat → CSynthesisOptions → Int × Nat × Option Ptr
  synthesizerTts : Ptr → String → Nat → CTtsOptions → Int × Nat × Option Ptr
  synthesizerCreateMetasJson : Ptr → Option Ptr
  synthesizerIsGpuMode : Ptr → Bool
  getVersion : String
  scoreValidate : Option (String → Int)
  singFrameAudioQuery : Option (Ptr → String → Nat → Int × Option Ptr)
  frameSynthesisFn : Option (Ptr → String → Nat → Int × Nat × Option Ptr)
  decodeCString : Ptr → Option String
  decodeWavBytes : Ptr → Nat → Option (List Nat)
  parseJson : String → Option JsValue
  stringifyJson : JsValue → String

/-! ## Observable journal state

Everything an instrumented test double of the native layer could count:
how many native entry points were invoked, which pointers were freed or
deleted, which pointers `koffi.decode` was asked to dereference, and the
option records passed to the option-taking entry points. -/
structure NativeState where
  nativeCalls : Nat
  jsonFrees : List Ptr
  wavFrees : List Ptr
  openJtalkDeletes : List Ptr
  synthesizerDeletes : List Ptr
  voiceModelDeletes : List Ptr
  decodes : List Ptr
  synthesizerNewArgs : List (Ptr × Ptr × CInitializeOptions)
  loadOnnxruntimeArgs : List CLoadOnnxruntimeOptions
  synthesisArgs : List (Ptr × String × Nat × CSynthesisOptions)
  ttsArgs : List (Ptr × String × Nat × CTtsOptions)
  deriving DecidableEq, Repr

/-- The state before any native interaction. -/
def initState : NativeState :=
  { nativeCalls := 0, jsonFrees := [], wavFrees := [], openJtalkDeletes := [],
    synthesizerDeletes := [], voiceModelDeletes := [], decodes := [],
    synthesizerNewArgs := [], loadOnnxruntimeArgs := [], synthesisArgs := [],
    ttsArgs := [] }

/-- The effect monad of the binding layer: explicit journal state plus
JavaScript exceptions. -/
def M (α : Type) : Type := NativeState → Except JsError α × NativeState

instance : Monad M where
  pure a := fun s => (Except.ok a, s)
  bind m f := fun s =>
    match m s with
    | (Except.ok a, s') => f a s'
    | (Except.error e, s') => (Except.error e, s')

/-- Raise a JavaScript error (`throw`). -/
def throwJs {α : Type} (e : JsError) : M α := fun s => (Except.error e, s)

/-- Semantics of `try … catch`. -/
def catchJs {α : Type} (m : M α) (h : JsError → M α) : M α := fun s =>
  match m s with
  | (Except.ok a, s') => (Except.ok a, s')
  | (Except.error e, s') => h e s'

/-- Count one native entry-point invocation and apply its journal effect. -/
def native {α : Type} (v : α) (f : NativeState → NativeState) : M α := fun s =>
  (Except.ok v, f { s with nativeCalls := s.nativeCalls + 1 })

/-! ### Native call wrappers (one per entry point used by the claims) -/

def callErrorResultToMessage (env : NativeEnv) (code : Int) : M String :=
  native (env.errorMessage code) id

def callMakeDefaultInitializeOptions (env : NativeEnv) : M CInitializeOptions :=
  native env.defaultInitializeOptions id

def callMakeDefaultSynthesisOptions (env : NativeEnv) : M CSynthesisOptions :=
  native env.defaultSynthesisOptions id

def callMakeDefaultTtsOptions (env : NativeEnv) : M CTtsOptions :=
  native env.defaultTtsOptions id

def callMakeDefaultLoadOnnxruntimeOptions (env : NativeEnv) : M CLoadOnnxruntimeOptions :=
  native env.defaultLoadOnnxruntimeOptions id

def callOnnxruntimeLoadOnce (env : NativeEnv) (o : CLoadOnnxruntimeOptions) :
    M (Int × Option Ptr) :=
  native (env.onnxruntimeLoadOnce o)
    (fun s => { s with loadOnnxruntimeArgs := s.loadOnnxruntimeArgs ++ [o] })

def callOpenJtalkNew (env : NativeEnv) (dictDir : String) : M (Int × Option Ptr) :=
  native (env.openJtalkNew dictDir) id

def callOpenJtalkDelete (_env : NativeEnv) (p : Ptr) : M Unit :=
  native () (fun s => { s with openJtalkDeletes := s.openJtalkDeletes ++ [p] })

def callVoiceModelOpen (env : NativeEnv) (path : String) : M (Int × Option Ptr) :=
  native (env.voiceModelOpen path) id

def callVoiceModelDelete (_env : NativeEnv) (p : Ptr) : M Unit :=
  native () (fun s => { s with voiceModelDeletes := s.voiceModelDeletes ++ [p] })

def callSynthesizerNew (env : NativeEnv) (ort oj : Ptr) (o : CInitializeOptions) :
    M (Int × Option Ptr) :=
  native (env.synthesizerNew ort oj o)
    (fun s => { s with synthesizerNewArgs := s.synthesizerNewArgs ++ [(ort, oj, o)] })

def callSynthesizerDelete (_env : NativeEnv) (p : Ptr) : M Unit :=
  native () (fun s => { s with synthesizerDeletes := s.synthesizerDeletes ++ [p] })

def callSynthesizerLoadVoiceModel (env : NativeEnv) (synth model : Ptr) : M Int :=
  native (env.synthesizerLoadVoiceModel synth model) id

def callUserDictLoad (env : NativeEnv) (dict : Ptr) (path : String) : M Int :=
  native (env.userDictLoad dict path) id

def callSynthesizerCreateAudioQuery (env : NativeEnv) (synth : Ptr) (text : String)
    (styleId : Nat) : M (Int × Option Ptr) :=
  native (env.synthesizerCreateAudioQuery synth text styleId) id

def callSynthesizerSynthesis (env : NativeEnv) (synth : Ptr) (audioQueryJson : String)
    (styleId : Nat) (o : CSynthesisOptions) : M (Int × Nat × Option Ptr) :=
  native (env.synthesizerSynthesis synth audioQueryJson styleId o)
    (fun s => { s with synthesisArgs := s.synthesisArgs ++ [(synth, audioQueryJson, styleId, o)] })

def callSynthesizerTts (env : NativeEnv) (synth : Ptr) (text : String)
    (styleId : Nat) (o : CTtsOptions) : M (Int × Nat × Option Ptr) :=
  native (env.synthesizerTts synth text styleId o)
    (fun s => { s with ttsArgs := s.ttsArgs ++ [(synth, text, styleId, o)] })

def callSynthesizerCreateMetasJson (env : NativeEnv) (synth : Ptr) : M (Option Ptr) :=
  native (env.synthesizerCreateMetasJson synth) id

def callSynthesizerIsGpuMode (env : NativeEnv) (synth : Ptr) : M Bool :=
  native (env.synthesizerIsGpuMode synth) id

def callGetVersion (env : NativeEnv) : M String :=
  native env.getVersion id

def callScoreValidate (_env : NativeEnv) (f : String → Int) (json : String) : M Int :=
  native (f json) id

def callSingFrameAudioQuery (_env : NativeEnv) (f : Ptr → String → Nat → Int × Option Ptr)
    (synth : Ptr) (scoreJson : String) (styleId : Nat) : M (Int × Option Ptr) :=
  native (f synth scoreJson styleId) id

def callFrameSynthesis (_env : NativeEnv) (f : Ptr → String → Nat → Int × Nat × Option Ptr)
    (synth : Ptr) (faqJson : String) (styleId : Nat) : M (Int × Nat × Option Ptr) :=
  native (f synth faqJson styleId) id

def callJsonFree (_env : NativeEnv) (p : Ptr) : M Unit :=
  native () (fun s => { s with jsonFrees := s.jsonFrees ++ [p] })

def callWavFree (_env : NativeEnv) (p : Ptr) : M Unit :=
  native () (fun s => { s with wavFrees := s.wavFrees ++ [p] })

/-- Embeds `koffi.decode(ptr, "char", -1)`: dereference a native C string.  The
dereference attempt is journalled; a failing decode raises. -/
def decodeCStr (env : NativeEnv) (p : Ptr) : M String := fun s =>
  let s' := { s with decodes := s.decodes ++ [p] }
  match env.decodeCString p with
  | some str => (Except.ok str, s')
  | none => (Except.error (JsError.plain "koffi.decode failed"), s')

/-- Embeds `koffi.decode(ptr, koffi.array("uint8", length))` followed by the copy
into a fresh `Uint8Array`. -/
def decodeWav (env : NativeEnv) (p : Ptr) (length : Nat) : M (List Nat) := fun s =>
  let s' := { s with decodes := s.decodes ++ [p] }
  match env.decodeWavBytes p length with
  | some bytes => (Except.ok bytes, s')
  | none => (Except.error (JsError.plain "koffi.decode failed"), s')

/-- Embeds `JSON.parse`; a malformed document raises a `SyntaxError`. -/
def jsParse (env : NativeEnv) (str : String) : M JsValue :=
  match env.parseJson str with
  | some v => pure v
  | none => throwJs (JsError.plain "Unexpected token in JSON")

/-! ## API wrappers

Embeddings of the functions under `src/api/`, one Lean `def` per exported
TypeScript function, following the source line by line. -/

/-- Embeds `loadOnnxruntime` (`src/api/onnxruntime.ts`). -/
def loadOnnxruntime (env : NativeEnv) (options : Option LoadOnnxruntimeOptions) : M Ptr := do
  let defaultOptions ← callMakeDefaultLoadOnnxruntimeOptions env
  let loadOptions : CLoadOnnxruntimeOptions :=
    { filename := (options.bind (·.filename)).getD defaultOptions.filename }
  let r ← callOnnxruntimeLoadOnce env loadOptions
  if r.1 ≠ 0 then do
    let message ← callErrorResultToMessage env r.1
    throwJs (JsError.voicevox r.1 message)
  else
    match r.2 with
    | none => throwJs (JsError.plain "Failed to load ONNX Runtime: null handle returned")
    | some handle => pure handle

/-- Embeds `createOpenJtalk` (`src/api/open-jtalk.ts`). -/
def createOpenJtalk (env : NativeEnv) (dictDir : String) : M Ptr := do
  let r ← callOpenJtalkNew env dictDir
  if r.1 ≠ 0 then do
    let message ← callErrorResultToMessage env r.1
    throwJs (JsError.voicevox r.1 message)
  else
    match r.2 with
    | none => throwJs (JsError.plain "Failed to create OpenJtalk: null handle returned")
    | some handle => pure handle

/-- Embeds `deleteOpenJtalk` (`src/api/open-jtalk.ts`). -/
def deleteOpenJtalk (env : NativeEnv) (openJtalk : Ptr) : M Unit :=
  callOpenJtalkDelete env openJtalk

/-- Embeds `loadUserDict` (`src/api/open-jtalk.ts`). -/
def loadUserDict (env : NativeEnv) (userDict : Ptr) (dictPath : String) : M Unit := do
  let resultCode ← callUserDictLoad env userDict dictPath
  if resultCode ≠ 0 then do
    let message ← callErrorResultToMessage env resultCode
    throwJs (JsError.voicevox resultCode message)
  else
    pure ()

/-- Embeds `openVoiceModelFile` (`src/api/voice-model.ts`). -/
def openVoiceModelFile (env : NativeEnv) (path : String) : M Ptr := do
  let r ← callVoiceModelOpen env path
  if r.1 ≠ 0 then do
    let message ← callErrorResultToMessage env r.1
    throwJs (JsError.voicevox r.1 message)
  else
    match r.2 with
    | none => throwJs (JsError.plain "Failed to open voice model file: null handle returned")
    | some handle => pure handle

/-- Embeds `closeVoiceModelFile` (`src/api/voice-model.ts`): unconditionally
invokes the native delete; there is no managed disposed flag here. -/
def closeVoiceModelFile (env : NativeEnv) (model : Ptr) : M Unit :=
  callVoiceModelDelete env model

/-- Embeds `createSynthesizer` (`src/api/synthesizer.ts`). -/
def createSynthesizer (env : NativeEnv) (onnxruntime openJtalk : Ptr)
    (options : Option InitializeOptions) : M Ptr := do
  let defaultOptions ← callMakeDefaultInitializeOptions env
  let initOptions : CInitializeOptions :=
    { acceleration_mode := (options.bind (·.accelerationMode)).getD defaultOptions.acceleration_mode
      cpu_num_threads := (options.bind (·.cpuNumThreads)).getD defaultOptions.cpu_num_threads }
  let r ← callSynthesizerNew env onnxruntime openJtalk initOptions
  if r.1 ≠ 0 then do
    let message ← callErrorResultToMessage env r.1
    throwJs (JsError.voicevox r.1 message)
  else
    match r.2 with
    | none => throwJs (JsError.plain "Failed to create synthesizer: null handle returned")
    | some handle => pure handle

/-- Embeds `deleteSynthesizer` (`src/api/synthesizer.ts`). -/
def deleteSynthesizer (env : NativeEnv) (synthesizer : Ptr) : M Unit :=
  callSynthesizerDelete env synthesizer

/-- Embeds `loadVoiceModel` (`src/api/synthesizer.ts`). -/
def loadVoiceModel (env : NativeEnv) (synthesizer model : Ptr) : M Unit := do
  let resultCode ← callSynthesizerLoadVoiceModel env synthesizer model
  if resultCode ≠ 0 then do
    let message ← callErrorResultToMessage env resultCode
    throwJs (JsError.voicevox resultCode message)
  else
    pure ()

/-- Embeds `isGpuMode` (`src/api/synthesizer.ts`). -/
def isGpuMode (env : NativeEnv) (synthesizer : Ptr) : M Bool :=
  callSynthesizerIsGpuMode env synthesizer

/-- Embeds `getSynthesizerMetasJson` (`src/api/synthesizer.ts`): the returned
`char*` is decoded, then freed with `voicevox_json_free`. -/
def getSynthesizerMetasJson (env : NativeEnv) (synthesizer : Ptr) : M String := do
  let jsonPtr ← callSynthesizerCreateMetasJson env synthesizer
  match jsonPtr with
  | none => throwJs (JsError.plain "koffi.decode failed")
  | some p => do
      let jsonStr ← decodeCStr env p
      callJsonFree env p
      pure jsonStr

/-- Embeds `createAudioQuery` (`src/api/synthesizer.ts`): result-code check, null
check, pointer decode, `voicevox_json_free`, then `JSON.parse` — in that
order. -/
def createAudioQuery (env : NativeEnv) (synthesizer : Ptr) (text : String)
    (styleId : Nat) : M JsValue := do
  let r ← callSynthesizerCreateAudioQuery env synthesizer text styleId
  if r.1 ≠ 0 then do
    let message ← callErrorResultToMessage env r.1
    throwJs (JsError.voicevox r.1 message)
  else
    match r.2 with
    | none => throwJs (JsError.plain "Failed to create JSON: null pointer returned")
    | some jsonPtr => do
        let jsonStr ← decodeCStr env jsonPtr
        callJsonFree env jsonPtr
        jsParse env jsonStr

/-- Embeds `synthesis` (`src/api/synthesizer.ts`). -/
def synthesis (env : NativeEnv) (synthesizer : Ptr) (audioQuery : JsValue)
    (styleId : Nat) (options : Option SynthesisOptions) : M (List Nat) := do
  let defaultOptions ← callMakeDefaultSynthesisOptions env
  let synthesisOptions : CSynthesisOptions :=
    { enable_interrogative_upspeak :=
        (options.bind (·.enableInterrogativeUpspeak)).getD
          defaultOptions.enable_interrogative_upspeak }
  let audioQueryJson := env.stringifyJson audioQuery
  let r ← callSynthesizerSynthesis env synthesizer audioQueryJson styleId synthesisOptions
  if r.1 ≠ 0 then do
    let message ← callErrorResultToMessage env r.1
    throwJs (JsError.voicevox r.1 message)
  else
    match r.2.2 with
    | none => throwJs (JsError.plain "Failed to synthesize: null pointer returned")
    | some wavPtr => do
        let wavData ← decodeWav env wavPtr r.2.1
        callWavFree env wavPtr
        pure wavData

/-- Embeds `tts` (`src/api/synthesizer.ts`). -/
def tts (env : NativeEnv) (synthesizer : Ptr) (text : String)
    (styleId : Nat) (options : Option TtsOptions) : M (List Nat) := do
  let defaultOptions ← callMakeDefaultTtsOptions env
  let ttsOptions : CTtsOptions :=
    { enable_interrogative_upspeak :=
        (options.bind (·.enableInterrogativeUpspeak)).getD
          defaultOptions.enable_interrogative_upspeak }
  let r ← callSynthesizerTts env synthesizer text styleId ttsOptions
  if r.1 ≠ 0 then do
    let message ← callErrorResultToMessage env r.1
    throwJs (JsError.voicevox r.1 message)
  else
    match r.2.2 with
    | none => throwJs (JsError.plain "Failed to synthesize: null pointer returned")
    | some wavPtr => do
        let wavData ← decodeWav env wavPtr r.2.1
        callWavFree env wavPtr
        pure wavData

/-- Embeds `validateScore` (`src/api/validation.ts`): guarded by presence of the
optional entry point `voicevox_score_validate`. -/
def validateScore (env : NativeEnv) (scoreJson : String) : M Unit :=
  match env.scoreValidate with
  | none =>
      throwJs (JsError.plain
        "voicevox_score_validate is not available in this version of voicevox_core")
  | some f => do
      let resultCode ← callScoreValidate env f scoreJson
      if resultCode ≠ 0 then do
        let message ← callErrorResultToMessage env resultCode
        throwJs (JsError.voicevox resultCode message)
      else
        pure ()

/-- Embeds `createSingFrameAudioQuery` (`src/api/song.ts`): guarded by presence of
the optional entry point `voicevox_synthesizer_create_sing_frame_audio_query`. -/
def createSingFrameAudioQuery (env : NativeEnv) (synthesizer : Ptr) (score : JsValue)
    (styleId : Nat) : M JsValue :=
  match env.singFrameAudioQuery with
  | none =>
      throwJs (JsError.plain
        "voicevox_synthesizer_create_sing_frame_audio_query is not available. This function requires voicevox_core v0.16.4 or later.")
  | some f => do
      let scoreJson := env.stringifyJson score
      let r ← callSingFrameAudioQuery env f synthesizer scoreJson styleId
      if r.1 ≠ 0 then do
        let message ← callErrorResultToMessage env r.1
        throwJs (JsError.voicevox r.1 message)
      else
        match r.2 with
        | none => throwJs (JsError.plain "Failed to create JSON: null pointer returned")
        | some jsonPtr => do
            let jsonStr ← decodeCStr env jsonPtr
            callJsonFree env jsonPtr
            jsParse env jsonStr

/-- Embeds `frameSynthesis` (`src/api/song.ts`): guarded by presence of the
optional entry point `voicevox_synthesizer_frame_synthesis`. -/
def frameSynthesis (env : NativeEnv) (synthesizer : Ptr) (frameAudioQuery : JsValue)
    (styleId : Nat) : M (List Nat) :=
  match env.frameSynthesisFn with
  | none =>
      throwJs (JsError.plain
        "voicevox_synthesizer_frame_synthesis is not available. This function requires voicevox_core v0.16.4 or later.")
  | some f => do
      let frameAudioQueryJson := env.stringifyJson frameAudioQuery
      let r ← callFrameSynthesis env f synthesizer frameAudioQueryJson styleId
      if r.1 ≠ 0 then do
        let message ← callErrorResultToMessage env r.1
        throwJs (JsError.voicevox r.1 message)
      else
        match r.2.2 with
        | none => throwJs (JsError.plain "Failed to synthesize: null pointer returned")
        | some wavPtr => do
            let wavData ← decodeWav env wavPtr r.2.1
            callWavFree env wavPtr
            pure wavData

/-! ## High-level client (`src/client/voicevox-client.ts`)

The client closure captures the three handles and a mutable `disposed`
flag; the flag is threaded explicitly here.  Every operation starts with
`ensureNotDisposed`. -/

/-- The three handles captured by the client closure. -/
structure ClientHandles where
  synthesizer : Ptr
  openJtalk : Ptr
  onnxruntime : Ptr
  deriving DecidableEq, Repr

/-- Client initialization options (`src/client/types.ts`). -/
structure VoicevoxClientOptions where
  corePath : String
  onnxruntimePath : Option String := none
  openJtalkDictDir : String
  initializeOptions : Option InitializeOptions := none

/-- Embeds `ensureNotDisposed` inside `createVoicevoxClient`. -/
def ensureNotDisposed (disposed : Bool) : M Unit :=
  if disposed then throwJs (JsError.plain "VoicevoxClient has been disposed") else pure ()

/-- Embeds `createVoicevoxClient` (`src/client/voicevox-client.ts`): load the
runtime, create the text analyzer, then construct the synthesizer inside a
`try` whose `catch` destroys the just-created OpenJTalk handle and
rethrows. -/
def createVoicevoxClient (env : NativeEnv) (options : VoicevoxClientOptions) :
    M ClientHandles := do
  let onnxruntime ← loadOnnxruntime env (some { filename := options.onnxruntimePath })
  let openJtalk ← createOpenJtalk env options.openJtalkDictDir
  let synthesizer ← catchJs
    (createSynthesizer env onnxruntime openJtalk options.initializeOptions)
    (fun error => do
      deleteOpenJtalk env openJtalk
      throwJs error)
  pure { synthesizer := synthesizer, openJtalk := openJtalk, onnxruntime := onnxruntime }

/-- Embeds `client.tts`. -/
def clientTts (env : NativeEnv) (c : ClientHandles) (disposed : Bool)
    (text : String) (styleId : Nat) (options : Option TtsOptions) : M (List Nat) := do
  ensureNotDisposed disposed
  tts env c.synthesizer text styleId options

/-- Embeds `client.createAudioQuery`. -/
def clientCreateAudioQuery (env : NativeEnv) (c : ClientHandles) (disposed : Bool)
    (text : String) (styleId : Nat) : M JsValue := do
  ensureNotDisposed disposed
  createAudioQuery env c.synthesizer text styleId

/-- Embeds `client.synthesize`. -/
def clientSynthesize (env : NativeEnv) (c : ClientHandles) (disposed : Bool)
    (audioQuery : JsValue) (styleId : Nat) (options : Option SynthesisOptions) :
    M (List Nat) := do
  ensureNotDisposed disposed
  synthesis env c.synthesizer audioQuery styleId options

/-- Embeds `client.createSingFrameAudioQuery`. -/
def clientCreateSingFrameAudioQuery (env : NativeEnv) (c : ClientHandles) (disposed : Bool)
    (score : JsValue) (styleId : Nat) : M JsValue := do
  ensureNotDisposed disposed
  createSingFrameAudioQuery env c.synthesizer score styleId

/-- Embeds `client.frameSynthesize`. -/
def clientFrameSynthesize (env : NativeEnv) (c : ClientHandles) (disposed : Bool)
    (frameAudioQuery : JsValue) (styleId : Nat) : M (List Nat) := do
  ensureNotDisposed disposed
  frameSynthesis env c.synthesizer frameAudioQuery styleId

/-- Embeds `client.sing`: one disposed check, then the sing-frame audio query is
produced with the teacher style and synthesized with the singer style. -/
def clientSing (env : NativeEnv) (c : ClientHandles) (disposed : Bool)
    (score : JsValue) (teacherStyleId singerStyleId : Nat) : M (List Nat) := do
  ensureNotDisposed disposed
  let frameAudioQuery ← createSingFrameAudioQuery env c.synthesizer score teacherStyleId
  frameSynthesis env c.synthesizer frameAudioQuery singerStyleId

/-- Embeds `client.getLoadedSpeakers`. -/
def clientGetLoadedSpeakers (env : NativeEnv) (c : ClientHandles) (disposed : Bool) :
    M JsValue := do
  ensureNotDisposed disposed
  let metasJson ← getSynthesizerMetasJson env c.synthesizer
  jsParse env metasJson

/-- Embeds `client.getVersion`. -/
def clientGetVersion (env : NativeEnv) (_c : ClientHandles) (disposed : Bool) : M String := do
  ensureNotDisposed disposed
  callGetVersion env

/-- Embeds `client.isGpuMode`. -/
def clientIsGpuMode (env : NativeEnv) (c : ClientHandles) (disposed : Bool) : M Bool := do
  ensureNotDisposed disposed
  isGpuMode env c.synthesizer

/-- Embeds `client.close`: a second call returns immediately; the first call sets
the flag and deletes the synthesizer and the OpenJTalk handle.  Returns the
new value of the `disposed` flag. -/
def clientClose (env : NativeEnv) (c : ClientHandles) (disposed : Bool) : M Bool :=
  if disposed then pure true
  else do
    deleteSynthesizer env c.synthesizer
    deleteOpenJtalk env c.openJtalk
    pure true

/-! ## Concurrency adapter (`promisifyKoffiAsync`, `src/ffi/functions.ts`) -/

/-- The settlement a promise executor performs. -/
inductive Settle (α : Type) where
  | resolve (v : α)
  | reject (e : JsError)
  deriving DecidableEq, Repr

/-- The node-style completion callback that koffi's `.async` submission
invokes exactly once: `err` is non-null only when the submission mechanism
itself failed, `res` is the native call's return value. -/
def promisifyCallback {α : Type} (err : Option JsError) (res : α) : Settle α :=
  match err with
  | some e => Settle.reject e
  | none => Settle.resolve res

/-- Embeds `promisifyKoffiAsync`: the promise produced from one completion of the
submitted call — rejected iff the submission mechanism reported an error,
otherwise resolved with the native result. -/
def promisifyKoffiAsync {α : Type} (err : Option JsError) (res : α) : Except JsError α :=
  match promisifyCallback err res with
  | Settle.resolve v => Except.ok v
  | Settle.reject e => Except.error e

/-! ## Spec-side option merge

These definitions follow the spec's words for the configuration-record
contract — "caller-supplied fields overriding defaults field-by-field
(never a full replace)" — to be compared with the records the embedded
wrappers actually pass to the native layer. -/

/-- Field-by-field effective `VoicevoxInitializeOptions` per the spec. -/
def specEffectiveInitializeOptions (caller : Option InitializeOptions)
    (d : CInitializeOptions) : CInitializeOptions :=
  { acceleration_mode :=
      match caller.bind (·.accelerationMode) with
      | some v => v
      | none => d.acceleration_mode
    cpu_num_threads :=
      match caller.bind (·.cpuNumThreads) with
      | some v => v
      | none => d.cpu_num_threads }

/-- Field-by-field effective `VoicevoxSynthesisOptions` per the spec. -/
def specEffectiveSynthesisOptions (caller : Option SynthesisOptions)
    (d : CSynthesisOptions) : CSynthesisOptions :=
  { enable_interrogative_upspeak :=
      match caller.bind (·.enableInterrogativeUpspeak) with
      | some v => v
      | none => d.enable_interrogative_upspeak }

/-- Field-by-field effective `VoicevoxTtsOptions` per the spec. -/
def specEffectiveTtsOptions (caller : Option TtsOptions)
    (d : CTtsOptions) : CTtsOptions :=
  { enable_interrogative_upspeak :=
      match caller.bind (·.enableInterrogativeUpspeak) with
      | some v => v
      | none => d.enable_interrogative_upspeak }

/-- Field-by-field effective `VoicevoxLoadOnnxruntimeOptions` per the spec. -/
def specEffectiveLoadOnnxruntimeOptions (caller : Option LoadOnnxruntimeOptions)
    (d : CLoadOnnxruntimeOptions) : CLoadOnnxruntimeOptions :=
  { filename :=
      match caller.bind (·.filename) with
      | some v => v
      | none => d.filename }

/-! ## Concrete test environments (instrumented native doubles) -/

/-- A native double on which every call succeeds. -/
def baseEnv : NativeEnv :=
  { errorMessage := fun code => "native error " ++ toString code
    defaultInitializeOptions := { acceleration_mode := 0, cpu_num_threads := 2 }
    defaultSynthesisOptions := { enable_interrogative_upspeak := true }
    defaultTtsOptions := { enable_interrogative_upspeak := true }
    defaultLoadOnnxruntimeOptions := { filename := "libonnxruntime" }
    onnxruntimeLoadOnce := fun _ => (0, some 11)
    openJtalkNew := fun _ => (0, some 12)
    voiceModelOpen := fun _ => (0, some 13)
    synthesizerNew := fun _ _ _ => (0, some 14)
    synthesizerLoadVoiceModel := fun _ _ => 0
    userDictLoad := fun _ _ => 0
    synthesizerCreateAudioQuery := fun _ _ _ => (0, some 21)
    synthesizerSynthesis := fun _ _ _ _ => (0, 4, some 22)
    synthesizerTts := fun _ _ _ _ => (0, 4, some 23)
    synthesizerCreateMetasJson := fun _ => some 24
    synthesizerIsGpuMode := fun _ => false
    getVersion := "0.16.4"
    scoreValidate := some (fun _ => 0)
    singFrameAudioQuery := some (fun _ _ _ => (0, some 25))
    frameSynthesisFn := some (fun _ _ _ => (0, 4, some 26))
    decodeCString := fun _ => some "[]"
    decodeWavBytes := fun _ len => some (List.replicate len 0)
    parseJson := fun s => some s
    stringifyJson := fun v => v }

/-- Double whose synthesizer construction reports success but writes a
null pointer into the out-parameter. -/
def envNullSynth : NativeEnv :=
  { baseEnv with synthesizerNew := fun _ _ _ => (0, none) }

/-- Double whose audio-query creation reports success but writes a null
pointer into the out-parameter. -/
def envNullAudioQuery : NativeEnv :=
  { baseEnv with synthesizerCreateAudioQuery := fun _ _ _ => (0, none) }

/-- Double on which dereferencing any returned C string raises. -/
def envDecodeFail : NativeEnv :=
  { baseEnv with decodeCString := fun _ => none }

/-- Double whose synthesizer construction fails with result code 7. -/
def envSynthFail : NativeEnv :=
  { baseEnv with synthesizerNew := fun _ _ _ => (7, none) }

/-- Double whose voice-model load fails with result code 7. -/
def envLoadFail : NativeEnv :=
  { baseEnv with synthesizerLoadVoiceModel := fun _ _ => 7 }

/-- Double loaded from an old native library: the optional singing and
validation entry points are absent. -/
def envNoOptional : NativeEnv :=
  { baseEnv with
    scoreValidate := none
    singFrameAudioQuery := none
    frameSynthesisFn := none }

/-! ## Generic run lemmas for the effect monad -/

theorem bindRun {α β : Type} (m : M α) (f : α → M β) (s : NativeState) :
    (m >>= f) s =
      match m s with
      | (Except.ok a, s') => f a s'
      | (Except.error e, s') => (Except.error e, s') := rfl

theorem pureRun {α : Type} (a : α) (s : NativeState) :
    (pure a : M α) s = (Except.ok a, s) := rfl

theorem catchRun {α : Type} (m : M α) (h : JsError → M α) (s : NativeState) :
    catchJs m h s =
      match m s with
      | (Except.ok a, s') => (Except.ok a, s')
      | (Except.error e, s') => h e s' := rfl

/-- C10: `client.sing(score, teacherStyleId, singerStyleId)` is
extensionally equal to running `client.createSingFrameAudioQuery(score,
teacherStyleId)` and then `client.frameSynthesize(_, singerStyleId)`
against the same native layer, from any journal state and either disposal
state. -/
theorem c10_sing_is_composition (env : NativeEnv) (c : ClientHandles) (disposed : Bool)
    (score : JsValue) (teacherStyleId singerStyleId : Nat) (st : NativeState) :
    clientSing env c disposed score teacherStyleId singerStyleId st =
      (clientCreateSingFrameAudioQuery env c disposed score teacherStyleId >>= fun faq =>
        clientFrameSynthesize env c disposed faq singerStyleId) st := by
  cases disposed with
  | true =>
      simp [clientSing, clientCreateSingFrameAudioQuery, clientFrameSynthesize,
        ensureNotDisposed, throwJs, bindRun]
  | false =>
      simp only [clientSing, clientCreateSingFrameAudioQuery, clientFrameSynthesize,
        ensureNotDisposed, if_neg, Bool.false_eq_true, not_false_iff, bindRun, pureRun]

/-- C8: the concurrency adapter settles each completion in exactly one
way — it rejects precisely when the submission mechanism reported an
error, and otherwise resolves with the native call's result value; in
particular a nonzero native result code resolves normally. -/
theorem c8_promisify_settlement {α : Type} (err : Option JsError) (res : α) :
    (∀ e, promisifyKoffiAsync err res = Except.error e ↔ err = some e) ∧
    (err = none → promisifyKoffiAsync err res = Except.ok res) ∧
    (∀ code : Int, code ≠ 0 → promisifyKoffiAsync none code = Except.ok code) := by
  cases err <;> simp [promisifyKoffiAsync, promisifyCallback]

/-- Witness for C8: a completion with no submission error and the nonzero
native result code 7 resolves with 7. -/
theorem c8_promisify_settlement_witness :
    promisifyKoffiAsync (none : Option JsError) (7 : Int) = Except.ok 7 :=
  (c8_promisify_settlement (none : Option JsError) (7 : Int)).2.2 7 (by decide)

/-- C3 counterexample: at the managed layer, `closeVoiceModelFile` has no
disposed flag — calling it twice on handle 13 performs the native
`voicevox_voice_model_file_delete` twice (two native calls), where the
claim requires the second close to perform no native call. -/
theorem c3_close_twice_counterexample :
    ((closeVoiceModelFile baseEnv 13
        ((closeVoiceModelFile baseEnv 13 initState).2)).2).voiceModelDeletes = [13, 13] ∧
    ((closeVoiceModelFile baseEnv 13
        ((closeVoiceModelFile baseEnv 13 initState).2)).2).nativeCalls = 2 := by
  constructor <;> rfl

/-- C3 (amended): the `VoicevoxClient` handle disposes idempotently — the
first `close` deletes the synthesizer and the OpenJTalk handle once, a
second `close` succeeds without touching the native layer, and every
client operation invoked after `close` fails with the disposed-resource
error before any native call — while the low-level
`closeVoiceModelFile` has no disposed flag and performs the native delete
on every invocation. -/
theorem c3_client_disposal (env : NativeEnv) (c : ClientHandles) (s : NativeState)
    (text : String) (styleId : Nat) (opts : Option TtsOptions)
    (sopts : Option SynthesisOptions) (aq score : JsValue) (m : Ptr) :
    (clientClose env c false s).1 = Except.ok true ∧
    ((clientClose env c false s).2.synthesizerDeletes
        = s.synthesizerDeletes ++ [c.synthesizer]) ∧
    ((clientClose env c false s).2.openJtalkDeletes = s.openJtalkDeletes ++ [c.openJtalk]) ∧
    clientClose env c true s = (Except.ok true, s) ∧
    clientTts env c true text styleId opts s
      = (Except.error (JsError.plain "VoicevoxClient has been disposed"), s) ∧
    clientCreateAudioQuery env c true text styleId s
      = (Except.error (JsError.plain "VoicevoxClient has been disposed"), s) ∧
    clientSynthesize env c true aq styleId sopts s
      = (Except.error (JsError.plain "VoicevoxClient has been disposed"), s) ∧
    clientCreateSingFrameAudioQuery env c true score styleId s
      = (Except.error (JsError.plain "VoicevoxClient has been disposed"), s) ∧
    clientFrameSynthesize env c true aq styleId s
      = (Except.error (JsError.plain "VoicevoxClient has been disposed"), s) ∧
    clientSing env c true score styleId styleId s
      = (Except.error (JsError.plain "VoicevoxClient has been disposed"), s) ∧
    clientGetLoadedSpeakers env c true s
      = (Except.error (JsError.plain "VoicevoxClient has been disposed"), s) ∧
    clientGetVersion env c true s
      = (Except.error (JsError.plain "VoicevoxClient has been disposed"), s) ∧
    clientIsGpuMode env c true s
      = (Except.error (JsError.plain "VoicevoxClient has been disposed"), s) ∧
    ((closeVoiceModelFile env m s).2.voiceModelDeletes = s.voiceModelDeletes ++ [m]) ∧
    ((closeVoiceModelFile env m s).2.nativeCalls = s.nativeCalls + 1) := by
  refine ⟨?_, ?_, ?_, ?_, ?_, ?_, ?_, ?_, ?_, ?_, ?_, ?_, ?_, ?_, ?_⟩ <;>
    simp [clientClose, clientTts, clientCreateAudioQuery, clientSynthesize,
      clientCreateSingFrameAudioQuery, clientFrameSynthesize, clientSing,
      clientGetLoadedSpeakers, clientGetVersion, clientIsGpuMode,
      closeVoiceModelFile, callVoiceModelDelete, deleteSynthesizer, deleteOpenJtalk,
      callSynthesizerDelete, callOpenJtalkDelete, ensureNotDisposed, native,
      throwJs, bindRun, pureRun]

/-- C9: every options-taking wrapper passes the native layer a record
merged field by field — each caller-supplied field overrides the native
default from the matching make-default-options call, each omitted field
keeps the default, and the caller record never wholesale-replaces the
default record (`specEffective…` states the spec's merge). -/
theorem c9_options_merged_field_by_field (env : NativeEnv) (s : NativeState)
    (ort oj synth : Ptr) (iopts : Option InitializeOptions)
    (lopts : Option LoadOnnxruntimeOptions) (sopts : Option SynthesisOptions)
    (topts : Option TtsOptions) (aq : JsValue) (text : String) (styleId : Nat) :
    ((createSynthesizer env ort oj iopts s).2.synthesizerNewArgs
        = s.synthesizerNewArgs
          ++ [(ort, oj, specEffectiveInitializeOptions iopts env.defaultInitializeOptions)]) ∧
    ((loadOnnxruntime env lopts s).2.loadOnnxruntimeArgs
        = s.loadOnnxruntimeArgs
          ++ [specEffectiveLoadOnnxruntimeOptions lopts env.defaultLoadOnnxruntimeOptions]) ∧
    ((synthesis env synth aq styleId sopts s).2.synthesisArgs
        = s.synthesisArgs
          ++ [(synth, env.stringifyJson aq, styleId,
               specEffectiveSynthesisOptions sopts env.defaultSynthesisOptions)]) ∧
    ((tts env synth text styleId topts s).2.ttsArgs
        = s.ttsArgs
          ++ [(synth, text, styleId, specEffectiveTtsOptions topts env.defaultTtsOptions)]) ∧
    (∀ d : CInitializeOptions, specEffectiveInitializeOptions none d = d) ∧
    (∀ (d : CInitializeOptions) (a : Int),
      specEffectiveInitializeOptions (some { accelerationMode := some a }) d
        = { acceleration_mode := a, cpu_num_threads := d.cpu_num_threads }) ∧
    (∀ (d : CInitializeOptions) (n : Nat),
      specEffectiveInitializeOptions (some { cpuNumThreads := some n }) d
        = { acceleration_mode := d.acceleration_mode, cpu_num_threads := n }) ∧
    (∀ (d : CInitializeOptions) (a : Int) (n : Nat),
      specEffectiveInitializeOptions
          (some { accelerationMode := some a, cpuNumThreads := some n }) d
        = { acceleration_mode := a, cpu_num_threads := n }) ∧
    (∀ d : CSynthesisOptions, specEffectiveSynthesisOptions none d = d) ∧
    (∀ (d : CSynthesisOptions) (b : Bool),
      specEffectiveSynthesisOptions (some { enableInterrogativeUpspeak := some b }) d
        = { enable_interrogative_upspeak := b }) ∧
    (∀ d : CTtsOptions, specEffectiveTtsOptions none d = d) ∧
    (∀ d : CLoadOnnxruntimeOptions, specEffectiveLoadOnnxruntimeOptions none d = d) := by
  have merge1 : ∀ (o : Option InitializeOptions) (d : CInitializeOptions),
      specEffectiveInitializeOptions o d
        = { acceleration_mode := (o.bind (·.accelerationMode)).getD d.acceleration_mode,
            cpu_num_threads := (o.bind (·.cpuNumThreads)).getD d.cpu_num_threads } := by
    intro o d
    cases h1 : o.bind (·.accelerationMode) <;> cases h2 : o.bind (·.cpuNumThreads) <;>
      simp [specEffectiveInitializeOptions, h1, h2]
  have merge2 : ∀ (o : Option SynthesisOptions) (d : CSynthesisOptions),
      specEffectiveSynthesisOptions o d
        = { enable_interrogative_upspeak :=
              (o.bind (·.enableInterrogativeUpspeak)).getD d.enable_interrogative_upspeak } := by
    intro o d
    cases h1 : o.bind (·.enableInterrogativeUpspeak) <;>
      simp [specEffectiveSynthesisOptions, h1]
  have merge3 : ∀ (o : Option TtsOptions) (d : CTtsOptions),
      specEffectiveTtsOptions o d
        = { enable_interrogative_upspeak :=
              (o.bind (·.enableInterrogativeUpspeak)).getD d.enable_interrogative_upspeak } := by
    intro o d
    cases h1 : o.bind (·.enableInterrogativeUpspeak) <;> simp [specEffectiveTtsOptions, h1]
  have merge4 : ∀ (o : Option LoadOnnxruntimeOptions) (d : CLoadOnnxruntimeOptions),
      specEffectiveLoadOnnxruntimeOptions o d
        = { filename := (o.bind (·.filename)).getD d.filename } := by
    intro o d
    cases h1 : o.bind (·.filename) <;> simp [specEffectiveLoadOnnxruntimeOptions, h1]
  refine ⟨?_, ?_, ?_, ?_, ?_, ?_, ?_, ?_, ?_, ?_, ?_, ?_⟩
  · rw [merge1]
    rcases h : env.synthesizerNew ort oj
        { acceleration_mode := (iopts.bind (·.accelerationMode)).getD
            env.defaultInitializeOptions.acceleration_mode,
          cpu_num_threads := (iopts.bind (·.cpuNumThreads)).getD
            env.defaultInitializeOptions.cpu_num_threads } with ⟨code, out⟩
    by_cases hc : code = 0 <;> cases out <;>
      simp [createSynthesizer, callMakeDefaultInitializeOptions, callSynthesizerNew,
        callErrorResultToMessage, native, throwJs, bindRun, pureRun, h, hc]
  · rw [merge4]
    rcases h : env.onnxruntimeLoadOnce
        { filename := (lopts.bind (·.filename)).getD
            env.defaultLoadOnnxruntimeOptions.filename } with ⟨code, out⟩
    by_cases hc : code = 0 <;> cases out <;>
      simp [loadOnnxruntime, callMakeDefaultLoadOnnxruntimeOptions, callOnnxruntimeLoadOnce,
        callErrorResultToMessage, native, throwJs, bindRun, pureRun, h, hc]
  · rw [merge2]
    rcases h : env.synthesizerSynthesis synth (env.stringifyJson aq) styleId
        { enable_interrogative_upspeak :=
            (sopts.bind (·.enableInterrogativeUpspeak)).getD
              env.defaultSynthesisOptions.enable_interrogative_upspeak } with ⟨code, len, out⟩
    by_cases hc : code = 0
    all_goals cases out
    case pos.some p =>
      cases hd : env.decodeWavBytes p len <;>
        simp [synthesis, callMakeDefaultSynthesisOptions, callSynthesizerSynthesis,
          callErrorResultToMessage, decodeWav, callWavFree, native, throwJs, bindRun,
          pureRun, h, hc, hd]
    all_goals
      simp [synthesis, callMakeDefaultSynthesisOptions, callSynthesizerSynthesis,
        callErrorResultToMessage, decodeWav, callWavFree, native, throwJs, bindRun,
        pureRun, h, hc]
  · rw [merge3]
    rcases h : env.synthesizerTts synth text styleId
        { enable_interrogative_upspeak :=
            (topts.bind (·.enableInterrogativeUpspeak)).getD
              env.defaultTtsOptions.enable_interrogative_upspeak } with ⟨code, len, out⟩
    by_cases hc : code = 0
    all_goals cases out
    case pos.some p =>
      cases hd : env.decodeWavBytes p len <;>
        simp [tts, callMakeDefaultTtsOptions, callSynthesizerTts,
          callErrorResultToMessage, decodeWav, callWavFree, native, throwJs, bindRun,
          pureRun, h, hc, hd]
    all_goals
      simp [tts, callMakeDefaultTtsOptions, callSynthesizerTts,
        callErrorResultToMessage, decodeWav, callWavFree, native, throwJs, bindRun,
        pureRun, h, hc]
  · intro d; rw [merge1]; simp
  · intro d a; rw [merge1]; simp
  · intro d n; rw [merge1]; simp
  · intro d a n; rw [merge1]; simp
  · intro d; rw [merge2]; simp
  · intro d b; rw [merge2]; simp
  · intro d; rw [merge3]; simp
  · intro d; rw [merge4]; simp

/-- C6 counterexample: with `voicevox_score_validate` absent,
`validateScore` fails with a message that names the missing entry point
but does not name the minimum native version (the claim requires both;
the singing operations' messages cite `v0.16.4`, this one cites no
version). -/
theorem c6_validate_score_message_counterexample :
    (validateScore envNoOptional "[]" initState).1
      = Except.error (JsError.plain
          "voicevox_score_validate is not available in this version of voicevox_core") ∧
    strContains "voicevox_score_validate is not available in this version of voicevox_core"
      "voicevox_score_validate" = true ∧
    strContains "voicevox_score_validate is not available in this version of voicevox_core"
      "0.16.4" = false := by
  refine ⟨rfl, by decide, by decide⟩

/-- C6 (amended): when the backing optional entry point is absent, the
operation throws an unsupported-operation error naming the missing entry
point, without attempting any native call; the singing operations'
messages additionally name the minimum native version `v0.16.4`, whereas
the validation operations' messages do not name a version. -/
theorem c6_optional_entry_point_guard (env : NativeEnv) (s : NativeState)
    (scoreJson : String) (synth : Ptr) (score faq : JsValue) (styleId : Nat) :
    (env.scoreValidate = none →
      validateScore env scoreJson s
        = (Except.error (JsError.plain
            "voicevox_score_validate is not available in this version of voicevox_core"), s)) ∧
    (env.singFrameAudioQuery = none →
      createSingFrameAudioQuery env synth score styleId s
        = (Except.error (JsError.plain
            "voicevox_synthesizer_create_sing_frame_audio_query is not available. This function requires voicevox_core v0.16.4 or later."), s)) ∧
    (env.frameSynthesisFn = none →
      frameSynthesis env synth faq styleId s
        = (Except.error (JsError.plain
            "voicevox_synthesizer_frame_synthesis is not available. This function requires voicevox_core v0.16.4 or later."), s)) ∧
    strContains
      "voicevox_synthesizer_create_sing_frame_audio_query is not available. This function requires voicevox_core v0.16.4 or later."
      "voicevox_synthesizer_create_sing_frame_audio_query" = true ∧
    strContains
      "voicevox_synthesizer_create_sing_frame_audio_query is not available. This function requires voicevox_core v0.16.4 or later."
      "v0.16.4" = true ∧
    strContains
      "voicevox_synthesizer_frame_synthesis is not available. This function requires voicevox_core v0.16.4 or later."
      "voicevox_synthesizer_frame_synthesis" = true ∧
    strContains
      "voicevox_synthesizer_frame_synthesis is not available. This function requires voicevox_core v0.16.4 or later."
      "v0.16.4" = true := by
  refine ⟨fun h => ?_, fun h => ?_, fun h => ?_, by decide, by decide, by decide, by decide⟩
  · simp [validateScore, h, throwJs]
  · simp [createSingFrameAudioQuery, h, throwJs]
  · simp [frameSynthesis, h, throwJs]

/-- Witness for C6's amended theorem, at the concrete old-library double:
`validateScore` fails with the fixed unsupported-operation message. -/
theorem c6_optional_entry_point_guard_witness :
    validateScore envNoOptional "[]" initState
      = (Except.error (JsError.plain
          "voicevox_score_validate is not available in this version of voicevox_core"),
         initState) :=
  (c6_optional_entry_point_guard envNoOptional initState "[]" 1 "[]" "[]" 0).1 rfl

/-- C7: a null pointer in an out-parameter despite a success result code
makes the operation fail with a plain internal-invariant error — a
different error type from the structured `VoicevoxError` — without the
pointer ever being dereferenced; and a successful operation never yields
a null handle (its handle is exactly the non-null pointer the native call
wrote). -/
theorem c7_null_on_success_is_fatal (env : NativeEnv) (s : NativeState)
    (ort oj synth : Ptr) (opts : Option InitializeOptions) (text : String) (styleId : Nat) :
    ((∀ o, env.synthesizerNew ort oj o = (0, none)) →
      (createSynthesizer env ort oj opts s).1
          = Except.error (JsError.plain "Failed to create synthesizer: null handle returned") ∧
      (∀ code msg, (createSynthesizer env ort oj opts s).1
          ≠ Except.error (JsError.voicevox code msg))) ∧
    (env.synthesizerCreateAudioQuery synth text styleId = (0, none) →
      (createAudioQuery env synth text styleId s).1
          = Except.error (JsError.plain "Failed to create JSON: null pointer returned") ∧
      ((createAudioQuery env synth text styleId s).2.decodes = s.decodes) ∧
      ((createAudioQuery env synth text styleId s).2.jsonFrees = s.jsonFrees) ∧
      (∀ code msg, (createAudioQuery env synth text styleId s).1
          ≠ Except.error (JsError.voicevox code msg))) ∧
    (∀ handle, (createSynthesizer env ort oj opts s).1 = Except.ok handle →
      ∃ o, env.synthesizerNew ort oj o = (0, some handle)) := by
  refine ⟨fun h => ?_, fun h => ?_, fun handle h => ?_⟩
  · constructor <;>
      simp [createSynthesizer, callMakeDefaultInitializeOptions, callSynthesizerNew,
        callErrorResultToMessage, native, throwJs, bindRun, pureRun, h]
  · refine ⟨?_, ?_, ?_, ?_⟩ <;>
      simp [createAudioQuery, callSynthesizerCreateAudioQuery, callErrorResultToMessage,
        native, throwJs, bindRun, pureRun, h]
  · rcases hn : env.synthesizerNew ort oj
        { acceleration_mode := (opts.bind (·.accelerationMode)).getD
            env.defaultInitializeOptions.acceleration_mode,
          cpu_num_threads := (opts.bind (·.cpuNumThreads)).getD
            env.defaultInitializeOptions.cpu_num_threads } with ⟨code, out⟩
    by_cases hc : code = 0
    · cases out with
      | none =>
          simp [createSynthesizer, callMakeDefaultInitializeOptions, callSynthesizerNew,
            callErrorResultToMessage, native, throwJs, bindRun, pureRun, hn, hc] at h
      | some p =>
          subst hc
          simp [createSynthesizer, callMakeDefaultInitializeOptions, callSynthesizerNew,
            callErrorResultToMessage, native, throwJs, bindRun, pureRun, hn] at h
          exact ⟨_, by rw [hn, h]⟩
    · simp [createSynthesizer, callMakeDefaultInitializeOptions, callSynthesizerNew,
        callErrorResultToMessage, native, throwJs, bindRun, pureRun, hn, hc] at h

/-- Witness for C7 at concrete doubles: with a success code and a null
out-pointer, synthesizer construction fails with the plain invariant
error, and audio-query creation fails likewise with no free recorded. -/
theorem c7_null_on_success_is_fatal_witness :
    (createSynthesizer envNullSynth 1 2 none initState).1
        = Except.error (JsError.plain "Failed to create synthesizer: null handle returned") ∧
    (createAudioQuery envNullAudioQuery 14 "a" 0 initState).1
        = Except.error (JsError.plain "Failed to create JSON: null pointer returned") :=
  ⟨((c7_null_on_success_is_fatal envNullSynth initState 1 2 14 none "a" 0).1
      (fun _ => rfl)).1,
   ((c7_null_on_success_is_fatal envNullAudioQuery initState 1 2 14 none "a" 0).2.1
      rfl).1⟩

theorem specInitOptions_getD (o : Option InitializeOptions) (d : CInitializeOptions) :
    specEffectiveInitializeOptions o d
      = { acceleration_mode := (o.bind (·.accelerationMode)).getD d.acceleration_mode,
          cpu_num_threads := (o.bind (·.cpuNumThreads)).getD d.cpu_num_threads } := by
  cases h1 : o.bind (·.accelerationMode) <;> cases h2 : o.bind (·.cpuNumThreads) <;>
    simp [specEffectiveInitializeOptions, h1, h2]

theorem specSynthesisOptions_getD (o : Option SynthesisOptions) (d : CSynthesisOptions) :
    specEffectiveSynthesisOptions o d
      = { enable_interrogative_upspeak :=
            (o.bind (·.enableInterrogativeUpspeak)).getD d.enable_interrogative_upspeak } := by
  cases h1 : o.bind (·.enableInterrogativeUpspeak) <;>
    simp [specEffectiveSynthesisOptions, h1]

theorem specTtsOptions_getD (o : Option TtsOptions) (d : CTtsOptions) :
    specEffectiveTtsOptions o d
      = { enable_interrogative_upspeak :=
            (o.bind (·.enableInterrogativeUpspeak)).getD d.enable_interrogative_upspeak } := by
  cases h1 : o.bind (·.enableInterrogativeUpspeak) <;> simp [specEffectiveTtsOptions, h1]

theorem specLoadOnnxruntimeOptions_getD (o : Option LoadOnnxruntimeOptions)
    (d : CLoadOnnxruntimeOptions) :
    specEffectiveLoadOnnxruntimeOptions o d
      = { filename := (o.bind (·.filename)).getD d.filename } := by
  cases h1 : o.bind (·.filename) <;> simp [specEffectiveLoadOnnxruntimeOptions, h1]

/-- C2 counterexample: on a double whose synthesizer construction reports
the success code 0 but writes a null out-pointer, `createSynthesizer` does
not return normally — it throws the plain invariant error — so "when the
code is zero the operation returns normally" is false as stated. -/
theorem c2_zero_code_not_normal_return_counterexample :
    (envNullSynth.synthesizerNew 1 2
        { acceleration_mode := 0, cpu_num_threads := 2 }).1 = 0 ∧
    (createSynthesizer envNullSynth 1 2 none initState).1
      = Except.error (JsError.plain "Failed to create synthesizer: null handle returned") := by
  exact ⟨rfl, rfl⟩

/-- C2 (amended): every embedded fallible wrapper throws a structured
`VoicevoxError` iff the native call returned a nonzero result code, and
that error carries exactly that code together with the message from the
native result-code-to-message entry point; on a zero code no
`VoicevoxError` is thrown, and the operation returns normally once its
out-pointer is non-null and buffer decoding/parsing succeeds. -/
theorem c2_error_mapping (env : NativeEnv) (s : NativeState) (ort oj synth model dict : Ptr)
    (opts : Option InitializeOptions) (sopts : Option SynthesisOptions)
    (topts : Option TtsOptions) (dictDir path dictPath text : String)
    (aq : JsValue) (styleId : Nat) :
    (∀ code out,
      env.synthesizerNew ort oj
          (specEffectiveInitializeOptions opts env.defaultInitializeOptions) = (code, out) →
      ((code ≠ 0 → (createSynthesizer env ort oj opts s).1
          = Except.error (JsError.voicevox code (env.errorMessage code))) ∧
       (∀ c m, (createSynthesizer env ort oj opts s).1
            = Except.error (JsError.voicevox c m) →
          c = code ∧ code ≠ 0 ∧ m = env.errorMessage code) ∧
       (code = 0 → ∀ p, out = some p →
          (createSynthesizer env ort oj opts s).1 = Except.ok p))) ∧
    (∀ code out, env.openJtalkNew dictDir = (code, out) →
      ((code ≠ 0 → (createOpenJtalk env dictDir s).1
          = Except.error (JsError.voicevox code (env.errorMessage code))) ∧
       (∀ c m, (createOpenJtalk env dictDir s).1
            = Except.error (JsError.voicevox c m) →
          c = code ∧ code ≠ 0 ∧ m = env.errorMessage code) ∧
       (code = 0 → ∀ p, out = some p →
          (createOpenJtalk env dictDir s).1 = Except.ok p))) ∧
    (∀ code out, env.voiceModelOpen path = (code, out) →
      ((code ≠ 0 → (openVoiceModelFile env path s).1
          = Except.error (JsError.voicevox code (env.errorMessage code))) ∧
       (∀ c m, (openVoiceModelFile env path s).1
            = Except.error (JsError.voicevox c m) →
          c = code ∧ code ≠ 0 ∧ m = env.errorMessage code) ∧
       (code = 0 → ∀ p, out = some p →
          (openVoiceModelFile env path s).1 = Except.ok p))) ∧
    (∀ code, env.synthesizerLoadVoiceModel synth model = code →
      ((code ≠ 0 → (loadVoiceModel env synth model s).1
          = Except.error (JsError.voicevox code (env.errorMessage code))) ∧
       (∀ c m, (loadVoiceModel env synth model s).1
            = Except.error (JsError.voicevox c m) →
          c = code ∧ code ≠ 0 ∧ m = env.errorMessage code) ∧
       (code = 0 → (loadVoiceModel env synth model s).1 = Except.ok ()))) ∧
    (∀ code, env.userDictLoad dict dictPath = code →
      ((code ≠ 0 → (loadUserDict env dict dictPath s).1
          = Except.error (JsError.voicevox code (env.errorMessage code))) ∧
       (∀ c m, (loadUserDict env dict dictPath s).1
            = Except.error (JsError.voicevox c m) →
          c = code ∧ code ≠ 0 ∧ m = env.errorMessage code) ∧
       (code = 0 → (loadUserDict env dict dictPath s).1 = Except.ok ()))) ∧
    (∀ code out, env.synthesizerCreateAudioQuery synth text styleId = (code, out) →
      ((code ≠ 0 → (createAudioQuery env synth text styleId s).1
          = Except.error (JsError.voicevox code (env.errorMessage code))) ∧
       (∀ c m, (createAudioQuery env synth text styleId s).1
            = Except.error (JsError.voicevox c m) →
          c = code ∧ code ≠ 0 ∧ m = env.errorMessage code) ∧
       (code = 0 → ∀ p str v, out = some p → env.decodeCString p = some str →
          env.parseJson str = some v →
          (createAudioQuery env synth text styleId s).1 = Except.ok v))) ∧
    (∀ code len out,
      env.synthesizerSynthesis synth (env.stringifyJson aq) styleId
          (specEffectiveSynthesisOptions sopts env.defaultSynthesisOptions)
        = (code, len, out) →
      ((code ≠ 0 → (synthesis env synth aq styleId sopts s).1
          = Except.error (JsError.voicevox code (env.errorMessage code))) ∧
       (∀ c m, (synthesis env synth aq styleId sopts s).1
            = Except.error (JsError.voicevox c m) →
          c = code ∧ code ≠ 0 ∧ m = env.errorMessage code) ∧
       (code = 0 → ∀ p bytes, out = some p → env.decodeWavBytes p len = some bytes →
          (synthesis env synth aq styleId sopts s).1 = Except.ok bytes))) ∧
    (∀ code len out,
      env.synthesizerTts synth text styleId
          (specEffectiveTtsOptions topts env.defaultTtsOptions) = (code, len, out) →
      ((code ≠ 0 → (tts env synth text styleId topts s).1
          = Except.error (JsError.voicevox code (env.errorMessage code))) ∧
       (∀ c m, (tts env synth text styleId topts s).1
            = Except.error (JsError.voicevox c m) →
          c = code ∧ code ≠ 0 ∧ m = env.errorMessage code) ∧
       (code = 0 → ∀ p bytes, out = some p → env.decodeWavBytes p len = some bytes →
          (tts env synth text styleId topts s).1 = Except.ok bytes))) := by
  refine ⟨?_, ?_, ?_, ?_, ?_, ?_, ?_, ?_⟩
  · intro code out h
    rw [specInitOptions_getD] at h
    refine ⟨fun hc => ?_, fun c m hcm => ?_, fun hc p hp => ?_⟩
    · simp [createSynthesizer, callMakeDefaultInitializeOptions, callSynthesizerNew,
        callErrorResultToMessage, native, throwJs, bindRun, pureRun, h, hc]
    · by_cases hc : code = 0
      · subst hc
        cases out <;>
          simp [createSynthesizer, callMakeDefaultInitializeOptions, callSynthesizerNew,
            callErrorResultToMessage, native, throwJs, bindRun, pureRun, h] at hcm
      · simp [createSynthesizer, callMakeDefaultInitializeOptions, callSynthesizerNew,
          callErrorResultToMessage, native, throwJs, bindRun, pureRun, h, hc] at hcm
        exact ⟨hcm.1.symm, hc, hcm.2.symm⟩
    · subst hc hp
      simp [createSynthesizer, callMakeDefaultInitializeOptions, callSynthesizerNew,
        callErrorResultToMessage, native, throwJs, bindRun, pureRun, h]
  · intro code out h
    refine ⟨fun hc => ?_, fun c m hcm => ?_, fun hc p hp => ?_⟩
    · simp [createOpenJtalk, callOpenJtalkNew, callErrorResultToMessage, native, throwJs,
        bindRun, pureRun, h, hc]
    · by_cases hc : code = 0
      · subst hc
        cases out <;>
          simp [createOpenJtalk, callOpenJtalkNew, callErrorResultToMessage, native,
            throwJs, bindRun, pureRun, h] at hcm
      · simp [createOpenJtalk, callOpenJtalkNew, callErrorResultToMessage, native, throwJs,
          bindRun, pureRun, h, hc] at hcm
        exact ⟨hcm.1.symm, hc, hcm.2.symm⟩
    · subst hc hp
      simp [createOpenJtalk, callOpenJtalkNew, callErrorResultToMessage, native, throwJs,
        bindRun, pureRun, h]
  · intro code out h
    refine ⟨fun hc => ?_, fun c m hcm => ?_, fun hc p hp => ?_⟩
    · simp [openVoiceModelFile, callVoiceModelOpen, callErrorResultToMessage, native,
        throwJs, bindRun, pureRun, h, hc]
    · by_cases hc : code = 0
      · subst hc
        cases out <;>
          simp [openVoiceModelFile, callVoiceModelOpen, callErrorResultToMessage, native,
            throwJs, bindRun, pureRun, h] at hcm
      · simp [openVoiceModelFile, callVoiceModelOpen, callErrorResultToMessage, native,
          throwJs, bindRun, pureRun, h, hc] at hcm
        exact ⟨hcm.1.symm, hc, hcm.2.symm⟩
    · subst hc hp
      simp [openVoiceModelFile, callVoiceModelOpen, callErrorResultToMessage, native,
        throwJs, bindRun, pureRun, h]
  · intro code h
    refine ⟨fun hc => ?_, fun c m hcm => ?_, fun hc => ?_⟩
    · simp [loadVoiceModel, callSynthesizerLoadVoiceModel, callErrorResultToMessage,
        native, throwJs, bindRun, pureRun, h, hc]
    · by_cases hc : code = 0
      · subst hc
        simp [loadVoiceModel, callSynthesizerLoadVoiceModel, callErrorResultToMessage,
          native, throwJs, bindRun, pureRun, h] at hcm
      · simp [loadVoiceModel, callSynthesizerLoadVoiceModel, callErrorResultToMessage,
          native, throwJs, bindRun, pureRun, h, hc] at hcm
        exact ⟨hcm.1.symm, hc, hcm.2.symm⟩
    · subst hc
      simp [loadVoiceModel, callSynthesizerLoadVoiceModel, callErrorResultToMessage,
        native, throwJs, bindRun, pureRun, h]
  · intro code h
    refine ⟨fun hc => ?_, fun c m hcm => ?_, fun hc => ?_⟩
    · simp [loadUserDict, callUserDictLoad, callErrorResultToMessage, native, throwJs,
        bindRun, pureRun, h, hc]
    · by_cases hc : code = 0
      · subst hc
        simp [loadUserDict, callUserDictLoad, callErrorResultToMessage, native, throwJs,
          bindRun, pureRun, h] at hcm
      · simp [loadUserDict, callUserDictLoad, callErrorResultToMessage, native, throwJs,
          bindRun, pureRun, h, hc] at hcm
        exact ⟨hcm.1.symm, hc, hcm.2.symm⟩
    · subst hc
      simp [loadUserDict, callUserDictLoad, callErrorResultToMessage, native, throwJs,
        bindRun, pureRun, h]
  · intro code out h
    refine ⟨fun hc => ?_, fun c m hcm => ?_, fun hc p str v hp hd hv => ?_⟩
    · simp [createAudioQuery, callSynthesizerCreateAudioQuery, callErrorResultToMessage,
        native, throwJs, bindRun, pureRun, h, hc]
    · by_cases hc : code = 0
      · subst hc
        cases out with
        | none =>
            simp [createAudioQuery, callSynthesizerCreateAudioQuery,
              callErrorResultToMessage, native, throwJs, bindRun, pureRun, h] at hcm
        | some p =>
            cases hd : env.decodeCString p with
            | none =>
                simp [createAudioQuery, callSynthesizerCreateAudioQuery,
                  callErrorResultToMessage, callJsonFree, decodeCStr, jsParse, native,
                  throwJs, bindRun, pureRun, h, hd] at hcm
            | some str =>
                cases hv : env.parseJson str <;>
                  simp [createAudioQuery, callSynthesizerCreateAudioQuery,
                    callErrorResultToMessage, callJsonFree, decodeCStr, jsParse, native,
                    throwJs, bindRun, pureRun, h, hd, hv] at hcm
      · simp [createAudioQuery, callSynthesizerCreateAudioQuery, callErrorResultToMessage,
          native, throwJs, bindRun, pureRun, h, hc] at hcm
        exact ⟨hcm.1.symm, hc, hcm.2.symm⟩
    · subst hc hp
      simp [createAudioQuery, callSynthesizerCreateAudioQuery, callErrorResultToMessage,
        callJsonFree, decodeCStr, jsParse, native, throwJs, bindRun, pureRun, h, hd, hv]
  · intro code len out h
    rw [specSynthesisOptions_getD] at h
    refine ⟨fun hc => ?_, fun c m hcm => ?_, fun hc p bytes hp hd => ?_⟩
    · simp [synthesis, callMakeDefaultSynthesisOptions, callSynthesizerSynthesis,
        callErrorResultToMessage, native, throwJs, bindRun, pureRun, h, hc]
    · by_cases hc : code = 0
      · subst hc
        cases out with
        | none =>
            simp [synthesis, callMakeDefaultSynthesisOptions, callSynthesizerSynthesis,
              callErrorResultToMessage, native, throwJs, bindRun, pureRun, h] at hcm
        | some p =>
            cases hd : env.decodeWavBytes p len <;>
              simp [synthesis, callMakeDefaultSynthesisOptions, callSynthesizerSynthesis,
                callErrorResultToMessage, callWavFree, decodeWav, native, throwJs,
                bindRun, pureRun, h, hd] at hcm
      · simp [synthesis, callMakeDefaultSynthesisOptions, callSynthesizerSynthesis,
          callErrorResultToMessage, native, throwJs, bindRun, pureRun, h, hc] at hcm
        exact ⟨hcm.1.symm, hc, hcm.2.symm⟩
    · subst hc hp
      simp [synthesis, callMakeDefaultSynthesisOptions, callSynthesizerSynthesis,
        callErrorResultToMessage, callWavFree, decodeWav, native, throwJs, bindRun,
        pureRun, h, hd]
  · intro code len out h
    rw [specTtsOptions_getD] at h
    refine ⟨fun hc => ?_, fun c m hcm => ?_, fun hc p bytes hp hd => ?_⟩
    · simp [tts, callMakeDefaultTtsOptions, callSynthesizerTts, callErrorResultToMessage,
        native, throwJs, bindRun, pureRun, h, hc]
    · by_cases hc : code = 0
      · subst hc
        cases out with
        | none =>
            simp [tts, callMakeDefaultTtsOptions, callSynthesizerTts,
              callErrorResultToMessage, native, throwJs, bindRun, pureRun, h] at hcm
        | some p =>
            cases hd : env.decodeWavBytes p len <;>
              simp [tts, callMakeDefaultTtsOptions, callSynthesizerTts,
                callErrorResultToMessage, callWavFree, decodeWav, native, throwJs,
                bindRun, pureRun, h, hd] at hcm
      · simp [tts, callMakeDefaultTtsOptions, callSynthesizerTts, callErrorResultToMessage,
          native, throwJs, bindRun, pureRun, h, hc] at hcm
        exact ⟨hcm.1.symm, hc, hcm.2.symm⟩
    · subst hc hp
      simp [tts, callMakeDefaultTtsOptions, callSynthesizerTts, callErrorResultToMessage,
        callWavFree, decodeWav, native, throwJs, bindRun, pureRun, h, hd]

/-- Witness for C2's amended theorem: on a double whose voice-model load
returns the nonzero code 7, `loadVoiceModel` throws the `VoicevoxError`
carrying exactly code 7 and the native message for 7. -/
theorem c2_error_mapping_witness :
    (loadVoiceModel envLoadFail 14 13 initState).1
      = Except.error (JsError.voicevox 7 "native error 7") :=
  ((c2_error_mapping envLoadFail initState 1 2 14 13 15 none none none "d" "p" "dp" "t"
      "[]" 0).2.2.2.1 7 rfl).1 (by decide)

/-- C1 counterexample: on a double where the native audio-query call
succeeds with buffer 21 but dereferencing the returned pointer raises,
`createAudioQuery` propagates the decode error without ever invoking
`voicevox_json_free` — the buffer leaks, so the deallocation is not
invoked exactly once on every exit path as claimed. -/
theorem c1_decode_failure_leak_counterexample :
    envDecodeFail.synthesizerCreateAudioQuery 1 "a" 0 = (0, some 21) ∧
    (createAudioQuery envDecodeFail 1 "a" 0 initState).1
      = Except.error (JsError.plain "koffi.decode failed") ∧
    (createAudioQuery envDecodeFail 1 "a" 0 initState).2.jsonFrees = [] := by
  exact ⟨rfl, rfl, rfl⟩

/-- C1 (amended): whenever the native call succeeds with a non-null
buffer and the pointer decode succeeds, the matching deallocation runs
exactly once — including on the exit path where the subsequent
`JSON.parse` raises; a failed native call frees nothing; but on the path
where the pointer decode itself raises, the free call is skipped and the
buffer leaks. -/
theorem c1_free_exactly_once (env : NativeEnv) (s : NativeState) (synth : Ptr)
    (text : String) (styleId : Nat) (aq : JsValue) (sopts : Option SynthesisOptions) :
    (∀ p str, env.synthesizerCreateAudioQuery synth text styleId = (0, some p) →
      env.decodeCString p = some str →
      (createAudioQuery env synth text styleId s).2.jsonFrees = s.jsonFrees ++ [p] ∧
      (env.parseJson str = none →
        (createAudioQuery env synth text styleId s).1
          = Except.error (JsError.plain "Unexpected token in JSON"))) ∧
    (∀ p, env.synthesizerCreateAudioQuery synth text styleId = (0, some p) →
      env.decodeCString p = none →
      (createAudioQuery env synth text styleId s).2.jsonFrees = s.jsonFrees ∧
      (createAudioQuery env synth text styleId s).1
        = Except.error (JsError.plain "koffi.decode failed")) ∧
    (∀ code out, env.synthesizerCreateAudioQuery synth text styleId = (code, out) →
      code ≠ 0 →
      (createAudioQuery env synth text styleId s).2.jsonFrees = s.jsonFrees) ∧
    (∀ p len bytes,
      env.synthesizerSynthesis synth (env.stringifyJson aq) styleId
          (specEffectiveSynthesisOptions sopts env.defaultSynthesisOptions)
        = (0, len, some p) →
      env.decodeWavBytes p len = some bytes →
      (synthesis env synth aq styleId sopts s).2.wavFrees = s.wavFrees ++ [p]) ∧
    (∀ p len,
      env.synthesizerSynthesis synth (env.stringifyJson aq) styleId
          (specEffectiveSynthesisOptions sopts env.defaultSynthesisOptions)
        = (0, len, some p) →
      env.decodeWavBytes p len = none →
      (synthesis env synth aq styleId sopts s).2.wavFrees = s.wavFrees) ∧
    (∀ p str, env.synthesizerCreateMetasJson synth = some p →
      env.decodeCString p = some str →
      (getSynthesizerMetasJson env synth s).2.jsonFrees = s.jsonFrees ++ [p] ∧
      (getSynthesizerMetasJson env synth s).1 = Except.ok str) := by
  refine ⟨fun p str hq hd => ?_, fun p hq hd => ?_, fun code out hq hc => ?_,
    fun p len bytes hq hd => ?_, fun p len hq hd => ?_, fun p str hq hd => ?_⟩
  · constructor
    · cases hv : env.parseJson str <;>
        simp [createAudioQuery, callSynthesizerCreateAudioQuery, callErrorResultToMessage,
          callJsonFree, decodeCStr, jsParse, native, throwJs, bindRun, pureRun, hq, hd, hv]
    · intro hv
      simp [createAudioQuery, callSynthesizerCreateAudioQuery, callErrorResultToMessage,
        callJsonFree, decodeCStr, jsParse, native, throwJs, bindRun, pureRun, hq, hd, hv]
  · constructor <;>
      simp [createAudioQuery, callSynthesizerCreateAudioQuery, callErrorResultToMessage,
        callJsonFree, decodeCStr, jsParse, native, throwJs, bindRun, pureRun, hq, hd]
  · simp [createAudioQuery, callSynthesizerCreateAudioQuery, callErrorResultToMessage,
      native, throwJs, bindRun, pureRun, hq, hc]
  · rw [specSynthesisOptions_getD] at hq
    simp [synthesis, callMakeDefaultSynthesisOptions, callSynthesizerSynthesis,
      callErrorResultToMessage, callWavFree, decodeWav, native, throwJs, bindRun,
      pureRun, hq, hd]
  · rw [specSynthesisOptions_getD] at hq
    simp [synthesis, callMakeDefaultSynthesisOptions, callSynthesizerSynthesis,
      callErrorResultToMessage, callWavFree, decodeWav, native, throwJs, bindRun,
      pureRun, hq, hd]
  · constructor <;>
      simp [getSynthesizerMetasJson, callSynthesizerCreateMetasJson, callJsonFree,
        decodeCStr, native, throwJs, bindRun, pureRun, hq, hd]

/-- Witness for C1's amended theorem: on the all-success double the
audio-query buffer 21 is freed exactly once. -/
theorem c1_free_exactly_once_witness :
    (createAudioQuery baseEnv 14 "a" 0 initState).2.jsonFrees = [21] :=
  (((c1_free_exactly_once baseEnv initState 14 "a" 0 "[]" none).1 21 "[]" rfl rfl).1)

/-- C5: if the ONNX Runtime load and the OpenJTalk construction succeed
but the synthesizer construction fails (either by nonzero result code or
by a null handle on success), `createVoicevoxClient` destroys the
just-created OpenJTalk handle exactly once and propagates the
synthesizer-construction error to the caller. -/
theorem c5_cleanup_on_dependent_failure (env : NativeEnv) (s : NativeState)
    (opts : VoicevoxClientOptions) (ort oj : Ptr)
    (hort : ∀ o, env.onnxruntimeLoadOnce o = (0, some ort))
    (hoj : env.openJtalkNew opts.openJtalkDictDir = (0, some oj)) :
    (∀ code, (∀ o, env.synthesizerNew ort oj o = (code, none)) → code ≠ 0 →
      (createVoicevoxClient env opts s).1
          = Except.error (JsError.voicevox code (env.errorMessage code)) ∧
      (createVoicevoxClient env opts s).2.openJtalkDeletes
          = s.openJtalkDeletes ++ [oj]) ∧
    ((∀ o, env.synthesizerNew ort oj o = (0, none)) →
      (createVoicevoxClient env opts s).1
          = Except.error (JsError.plain "Failed to create synthesizer: null handle returned") ∧
      (createVoicevoxClient env opts s).2.openJtalkDeletes
          = s.openJtalkDeletes ++ [oj]) := by
  constructor
  · intro code hnew hc
    constructor <;>
      simp [createVoicevoxClient, loadOnnxruntime, createOpenJtalk, createSynthesizer,
        deleteOpenJtalk, callMakeDefaultLoadOnnxruntimeOptions, callOnnxruntimeLoadOnce,
        callOpenJtalkNew, callOpenJtalkDelete, callMakeDefaultInitializeOptions,
        callSynthesizerNew, callErrorResultToMessage, native, throwJs, catchJs, bindRun,
        pureRun, hort, hoj, hnew, hc]
  · intro hnew
    constructor <;>
      simp [createVoicevoxClient, loadOnnxruntime, createOpenJtalk, createSynthesizer,
        deleteOpenJtalk, callMakeDefaultLoadOnnxruntimeOptions, callOnnxruntimeLoadOnce,
        callOpenJtalkNew, callOpenJtalkDelete, callMakeDefaultInitializeOptions,
        callSynthesizerNew, callErrorResultToMessage, native, throwJs, catchJs, bindRun,
        pureRun, hort, hoj, hnew]

/-- Witness for C5: on the double whose synthesizer construction fails
with code 7, the client constructor fails with that `VoicevoxError` and
the OpenJTalk handle 12 is deleted exactly once. -/
theorem c5_cleanup_on_dependent_failure_witness :
    (createVoicevoxClient envSynthFail
        { corePath := "core", openJtalkDictDir := "dict" } initState).1
      = Except.error (JsError.voicevox 7 "native error 7") ∧
    (createVoicevoxClient envSynthFail
        { corePath := "core", openJtalkDictDir := "dict" } initState).2.openJtalkDeletes
      = [12] :=
  (c5_cleanup_on_dependent_failure envSynthFail initState
      { corePath := "core", openJtalkDictDir := "dict" } 11 12
      (fun _ => rfl) rfl).1 7 (fun _ => rfl) (by decide)

set_option maxRecDepth 4000

theorem byte_roundtrip :
    ∀ v : Fin 256, toUint8 (parseIntHex16 (byteToHex (v : Nat))) = (v : Nat) := by decide

theorem pair_roundtrip :
    ∀ i j : Fin 16,
      byteToHex (toUint8 (parseIntHex16 [hexCharOfDigit (i : Nat), hexCharOfDigit (j : Nat)]))
        = [hexCharOfDigit (i : Nat), hexCharOfDigit (j : Nat)] := by decide

theorem hexCharOfDigit_mem (n : Nat) : hexCharOfDigit n ∈ hexDigitChars := by
  unfold hexCharOfDigit List.getD
  cases h : hexDigitChars.get? n with
  | none => simp [Option.getD]; decide
  | some c => simp [Option.getD]; exact List.get?_mem h

theorem mem_hexDigitChars_ne_hyphen {c : Char} (h : c ∈ hexDigitChars) : c ≠ '-' := by
  intro h'
  subst h'
  revert h
  decide

theorem isLowerHexDigit_of_mem {c : Char} (h : c ∈ hexDigitChars) :
    isLowerHexDigit c = true := by
  simpa [isLowerHexDigit, List.contains] using List.elem_iff.mpr h

theorem mem_of_isLowerHexDigit {c : Char} (h : isLowerHexDigit c = true) :
    c ∈ hexDigitChars := by
  simpa [isLowerHexDigit, List.contains, List.elem_iff] using h

theorem isLowerHexDigit_surj {c : Char} (h : isLowerHexDigit c = true) :
    ∃ i : Fin 16, c = hexCharOfDigit (i : Nat) := by
  obtain ⟨n, hn⟩ := List.mem_iff_get.mp (mem_of_isLowerHexDigit h)
  refine ⟨⟨n.val, n.isLt⟩, ?_⟩
  rw [← hn, hexCharOfDigit, List.getD_eq_get hexDigitChars '0' n.isLt]

theorem byteToHex_length (b : Nat) : (byteToHex b).length = 2 := rfl

theorem flatten_pairs_length (l : List (List Char)) (h : ∀ t ∈ l, t.length = 2) :
    l.flatten.length = 2 * l.length := by
  induction l with
  | nil => simp
  | cons t rest ih =>
      simp only [List.flatten_cons, List.length_append, List.length_cons]
      rw [h t (List.mem_cons_self t rest), ih (fun u hu => h u (List.mem_cons_of_mem t hu))]
      ring

theorem flatten_drop_pairs (l : List (List Char)) (i : Nat) (h : ∀ t ∈ l, t.length = 2) :
    l.flatten.drop (2 * i) = (l.drop i).flatten := by
  induction l generalizing i with
  | nil => simp
  | cons t rest ih =>
      cases i with
      | zero => simp
      | succ j =>
          obtain ⟨a, b, rfl⟩ : ∃ a b, t = [a, b] := by
            have ht := h t (List.mem_cons_self t rest)
            match t, ht with
            | [a, b], _ => exact ⟨a, b, rfl⟩
          have harith : 2 * (j + 1) = 2 * j + 1 + 1 := by ring
          simp only [List.flatten_cons, List.cons_append, List.nil_append, harith,
            List.drop_succ_cons]
          exact ih j (fun u hu => h u (List.mem_cons_of_mem _ hu))

theorem drop_take_two (l : List Char) (n : Nat) (d : Char) (h : n + 1 < l.length) :
    (l.drop n).take 2 = [l.getD n d, l.getD (n + 1) d] := by
  induction n generalizing l with
  | zero =>
      match l, h with
      | a :: b :: t, _ => simp
  | succ m ih =>
      match l, h with
      | a :: t, h =>
          simp only [List.drop_succ_cons, List.getD_cons_succ]
          exact ih t (by simpa using h)

theorem getD_range_map (b : List Nat) (n : Nat) (d : Nat) (h : b.length = n) :
    (List.range n).map (fun i => b.getD i d) = b := by
  induction n generalizing b with
  | zero => simpa using (List.length_eq_zero.mp h)
  | succ m ih =>
      match b, h with
      | x :: t, h =>
          rw [List.range_succ_eq_map, List.map_cons, List.map_map]
          simp only [List.getD_cons_zero, Function.comp, List.getD_cons_succ]
          exact congrArg (x :: ·) (ih t (by simpa using h))

theorem pairs_flatten (l : List Char) (n : Nat) (d : Char) (h : l.length = 2 * n) :
    ((List.range n).map (fun i => [l.getD (2 * i) d, l.getD (2 * i + 1) d])).flatten
      = l := by
  induction n generalizing l with
  | zero => simpa using (List.length_eq_zero.mp (by simpa using h))
  | succ m ih =>
      match l, h with
      | a :: b :: t, h =>
          rw [List.range_succ_eq_map, List.map_cons, List.map_map]
          have harg : ∀ i : Nat,
              ((fun i => [(a :: b :: t).getD (2 * i) d, (a :: b :: t).getD (2 * i + 1) d])
                  ∘ (· + 1)) i
                = [t.getD (2 * i) d, t.getD (2 * i + 1) d] := by
            intro i
            have e1 : 2 * (i + 1) = 2 * i + 1 + 1 := by ring
            have e2 : 2 * (i + 1) + 1 = 2 * i + 1 + 1 + 1 := by ring
            simp [Function.comp, e1, e2, List.getD_cons_succ]
          rw [List.map_congr_left (fun i _ => harg i)]
          simp only [List.flatten_cons, List.getD_cons_zero, List.getD_cons_succ,
            List.cons_append, List.nil_append]
          have ht : t.length = 2 * m := by
            have := h
            simp only [List.length_cons] at this
            omega
          exact congrArg (fun u => a :: b :: u) (ih t ht)

theorem hexSeg_some {n : Nat} {s r : List Char} (h : hexSeg n s = some r) :
    ∃ g, s = g ++ r ∧ g.length = n ∧ ∀ c ∈ g, isLowerHexDigit c = true := by
  induction n generalizing s with
  | zero =>
      refine ⟨[], ?_, rfl, by simp⟩
      simpa [hexSeg] using h
  | succ m ih =>
      match s with
      | [] => simp [hexSeg] at h
      | c :: rest =>
          by_cases hc : isLowerHexDigit c
          · simp only [hexSeg, hc, if_pos] at h
            obtain ⟨g, hg, hlen, hhex⟩ := ih h
            refine ⟨c :: g, by simp [hg], by simp [hlen], ?_⟩
            intro x hx
            rcases List.mem_cons.mp hx with h' | h'
            · subst h'; exact hc
            · exact hhex x h'
          · simp [hexSeg, hc] at h

theorem hexSeg_append {g : List Char} {n : Nat} (r : List Char) (hlen : g.length = n)
    (hhex : ∀ c ∈ g, isLowerHexDigit c = true) : hexSeg n (g ++ r) = some r := by
  induction g generalizing n with
  | nil => simp [← hlen, hexSeg]
  | cons c t ih =>
      subst hlen
      have hc := hhex c (List.mem_cons_self c t)
      simp only [List.cons_append, List.length_cons, hexSeg, hc, if_pos]
      exact ih rfl (fun x hx => hhex x (List.mem_cons_of_mem _ hx))

theorem filter_hyphen_all_hex {g : List Char} (h : ∀ c ∈ g, isLowerHexDigit c = true) :
    g.filter (fun c => c ≠ '-') = g := by
  refine List.filter_eq_self.mpr (fun c hc => ?_)
  have := mem_hexDigitChars_ne_hyphen (mem_of_isLowerHexDigit (h c hc))
  simp [this]

theorem recombine_slices (u : List Char) :
    u.take 8 ++ ((u.drop 8).take 4 ++ ((u.drop 12).take 4 ++ ((u.drop 16).take 4
        ++ u.drop 20))) = u := by
  have d12 : (u.drop 8).drop 4 = u.drop 12 := by rw [List.drop_drop]
  have d16 : (u.drop 12).drop 4 = u.drop 16 := by rw [List.drop_drop]
  have d20 : (u.drop 16).drop 4 = u.drop 20 := by rw [List.drop_drop]
  calc u.take 8 ++ ((u.drop 8).take 4 ++ ((u.drop 12).take 4 ++ ((u.drop 16).take 4
          ++ u.drop 20)))
      = u.take 8 ++ ((u.drop 8).take 4 ++ ((u.drop 12).take 4 ++ ((u.drop 16).take 4
          ++ (u.drop 16).drop 4))) := by rw [d20]
    _ = u.take 8 ++ ((u.drop 8).take 4 ++ ((u.drop 12).take 4 ++ (u.drop 12).drop 4)) := by
          rw [List.take_append_drop, d16]
    _ = u.take 8 ++ ((u.drop 8).take 4 ++ (u.drop 8).drop 4) := by
          rw [List.take_append_drop, d12]
    _ = u.take 8 ++ u.drop 8 := by rw [List.take_append_drop]
    _ = u := List.take_append_drop 8 u

theorem bytes_to_string_to_bytes (b : List Nat) (hlen : b.length = 16)
    (hb : ∀ x ∈ b, x < 256) : uuidStringToBytes (uuidBytesToString b) = b := by
  have hl2 : ∀ t ∈ b.map byteToHex, t.length = 2 := by
    intro t ht
    obtain ⟨x, _, rfl⟩ := List.mem_map.mp ht
    exact byteToHex_length x
  have hexlen : (b.map byteToHex).flatten.length = 32 := by
    rw [flatten_pairs_length _ hl2, List.length_map, hlen]
  have hexmem : ∀ c ∈ (b.map byteToHex).flatten, c ∈ hexDigitChars := by
    intro c hc
    obtain ⟨t, htl, hct⟩ := List.mem_flatten.mp hc
    obtain ⟨x, _, rfl⟩ := List.mem_map.mp htl
    simp only [byteToHex, List.mem_cons, List.not_mem_nil, or_false] at hct
    rcases hct with rfl | rfl <;> exact hexCharOfDigit_mem _
  have hsegfil : ∀ seg : List Char, (∀ c ∈ seg, c ∈ (b.map byteToHex).flatten) →
      seg.filter (fun c => c ≠ '-') = seg := by
    intro seg hseg
    exact filter_hyphen_all_hex (fun c hc => isLowerHexDigit_of_mem (hexmem c (hseg c hc)))
  have hfil : (uuidBytesToString b).filter (fun c => c ≠ '-') = (b.map byteToHex).flatten := by
    unfold uuidBytesToString
    simp only [List.filter_append, List.filter_cons]
    rw [hsegfil _ (fun c hc => List.mem_of_mem_take hc),
      hsegfil _ (fun c hc => List.mem_of_mem_drop (List.mem_of_mem_take hc)),
      hsegfil _ (fun c hc => List.mem_of_mem_drop (List.mem_of_mem_take hc)),
      hsegfil _ (fun c hc => List.mem_of_mem_drop (List.mem_of_mem_take hc)),
      hsegfil _ (fun c hc => List.mem_of_mem_drop hc)]
    simp
    exact recombine_slices _
  unfold uuidStringToBytes
  rw [hfil]
  conv_rhs => rw [← getD_range_map b 16 0 hlen]
  refine List.map_congr_left (fun i hi => ?_)
  have hi16 : i < 16 := List.mem_range.mp hi
  have hib : i < b.length := by omega
  have hbound : b.getD i 0 < 256 := by
    rw [List.getD_eq_getElem _ _ hib]
    exact hb _ (List.getElem_mem _)
  have hdropmap : (b.map byteToHex).drop i
      = byteToHex (b.getD i 0) :: ((b.drop (i + 1)).map byteToHex) := by
    rw [← List.map_drop, List.drop_eq_getElem_cons hib, List.map_cons,
      List.getD_eq_getElem _ _ hib]
  calc toUint8 (parseIntHex16 (((b.map byteToHex).flatten.drop (2 * i)).take 2))
      = toUint8 (parseIntHex16 ((((b.map byteToHex).drop i).flatten).take 2)) := by
        rw [flatten_drop_pairs _ i hl2]
    _ = toUint8 (parseIntHex16 (byteToHex (b.getD i 0))) := by
        rw [hdropmap, List.flatten_cons, ← byteToHex_length (b.getD i 0), List.take_left]
    _ = b.getD i 0 := byte_roundtrip ⟨b.getD i 0, hbound⟩

theorem byteHex_flatten_mem (b : List Nat) :
    ∀ c ∈ (b.map byteToHex).flatten, c ∈ hexDigitChars := by
  intro c hc
  obtain ⟨t, htl, hct⟩ := List.mem_flatten.mp hc
  obtain ⟨x, _, rfl⟩ := List.mem_map.mp htl
  simp only [byteToHex, List.mem_cons, List.not_mem_nil, or_false] at hct
  rcases hct with rfl | rfl <;> exact hexCharOfDigit_mem _

theorem byteHex_flatten_length (b : List Nat) (hlen : b.length = 16) :
    (b.map byteToHex).flatten.length = 32 := by
  have hl2 : ∀ t ∈ b.map byteToHex, t.length = 2 := by
    intro t ht
    obtain ⟨x, _, rfl⟩ := List.mem_map.mp ht
    exact byteToHex_length x
  rw [flatten_pairs_length _ hl2, List.length_map, hlen]

theorem bytes_to_string_canonical (b : List Nat) (hlen : b.length = 16) :
    isCanonicalUuid (uuidBytesToString b) = true := by
  have hexlen := byteHex_flatten_length b hlen
  have hexmem := byteHex_flatten_mem b
  have hseg : ∀ seg : List Char, (∀ c ∈ seg, c ∈ (b.map byteToHex).flatten) →
      ∀ c ∈ seg, isLowerHexDigit c = true :=
    fun seg hs c hc => isLowerHexDigit_of_mem (hexmem c (hs c hc))
  have h1 := hexSeg_append (g := (b.map byteToHex).flatten.take 8) (n := 8)
    ('-' :: (((b.map byteToHex).flatten.drop 8).take 4
      ++ ('-' :: (((b.map byteToHex).flatten.drop 12).take 4
      ++ ('-' :: (((b.map byteToHex).flatten.drop 16).take 4
      ++ ('-' :: (b.map byteToHex).flatten.drop 20)))))))
    (by rw [List.length_take, hexlen]; norm_num)
    (hseg _ (fun c hc => List.mem_of_mem_take hc))
  have h2 := hexSeg_append (g := ((b.map byteToHex).flatten.drop 8).take 4) (n := 4)
    ('-' :: (((b.map byteToHex).flatten.drop 12).take 4
      ++ ('-' :: (((b.map byteToHex).flatten.drop 16).take 4
      ++ ('-' :: (b.map byteToHex).flatten.drop 20)))))
    (by rw [List.length_take, List.length_drop, hexlen]; norm_num)
    (hseg _ (fun c hc => List.mem_of_mem_drop (List.mem_of_mem_take hc)))
  have h3 := hexSeg_append (g := ((b.map byteToHex).flatten.drop 12).take 4) (n := 4)
    ('-' :: (((b.map byteToHex).flatten.drop 16).take 4
      ++ ('-' :: (b.map byteToHex).flatten.drop 20)))
    (by rw [List.length_take, List.length_drop, hexlen]; norm_num)
    (hseg _ (fun c hc => List.mem_of_mem_drop (List.mem_of_mem_take hc)))
  have h4 := hexSeg_append (g := ((b.map byteToHex).flatten.drop 16).take 4) (n := 4)
    ('-' :: (b.map byteToHex).flatten.drop 20)
    (by rw [List.length_take, List.length_drop, hexlen]; norm_num)
    (hseg _ (fun c hc => List.mem_of_mem_drop (List.mem_of_mem_take hc)))
  have h5' := hexSeg_append (g := (b.map byteToHex).flatten.drop 20) (n := 12) []
    (by rw [List.length_drop, hexlen])
    (hseg _ (fun c hc => List.mem_of_mem_drop hc))
  have h5 : hexSeg 12 ((b.map byteToHex).flatten.drop 20) = some [] := by
    rw [List.append_nil] at h5'
    exact h5'
  unfold uuidBytesToString
  simp [isCanonicalUuid, h1, h2, h3, h4, h5, expectHyphen]

theorem expectHyphen_some {t r : List Char} (h : expectHyphen t = some r) : t = '-' :: r := by
  unfold expectHyphen at h
  split at h
  · injection h with h
    rw [h]
  · exact absurd h (by simp)

theorem segments_roundtrip (g1 g2 g3 g4 g5 : List Char)
    (l1 : g1.length = 8) (l2 : g2.length = 4) (l3 : g3.length = 4) (l4 : g4.length = 4)
    (l5 : g5.length = 12)
    (x1 : ∀ c ∈ g1, isLowerHexDigit c = true) (x2 : ∀ c ∈ g2, isLowerHexDigit c = true)
    (x3 : ∀ c ∈ g3, isLowerHexDigit c = true) (x4 : ∀ c ∈ g4, isLowerHexDigit c = true)
    (x5 : ∀ c ∈ g5, isLowerHexDigit c = true) :
    uuidBytesToString (uuidStringToBytes
        (g1 ++ '-' :: (g2 ++ '-' :: (g3 ++ '-' :: (g4 ++ '-' :: g5)))))
      = g1 ++ '-' :: (g2 ++ '-' :: (g3 ++ '-' :: (g4 ++ '-' :: g5))) := by
  have hfil : (g1 ++ '-' :: (g2 ++ '-' :: (g3 ++ '-' :: (g4 ++ '-' :: g5)))).filter
      (fun c => c ≠ '-') = g1 ++ (g2 ++ (g3 ++ (g4 ++ g5))) := by
    simp only [List.filter_append, List.filter_cons]
    rw [filter_hyphen_all_hex x1, filter_hyphen_all_hex x2, filter_hyphen_all_hex x3,
      filter_hyphen_all_hex x4, filter_hyphen_all_hex x5]
    simp
  have hexlen : (g1 ++ (g2 ++ (g3 ++ (g4 ++ g5)))).length = 32 := by
    simp [List.length_append, l1, l2, l3, l4, l5]
  have hexhex : ∀ c ∈ g1 ++ (g2 ++ (g3 ++ (g4 ++ g5))), isLowerHexDigit c = true := by
    intro c hc
    simp only [List.mem_append] at hc
    rcases hc with hc | hc | hc | hc | hc
    exacts [x1 c hc, x2 c hc, x3 c hc, x4 c hc, x5 c hc]
  have hflatten :
      (((List.range 16).map (fun i => toUint8 (parseIntHex16
          (((g1 ++ (g2 ++ (g3 ++ (g4 ++ g5)))).drop (2 * i)).take 2)))).map
        byteToHex).flatten
      = g1 ++ (g2 ++ (g3 ++ (g4 ++ g5))) := by
    rw [List.map_map]
    have hpoint : ∀ i ∈ List.range 16,
        (byteToHex ∘ fun i => toUint8 (parseIntHex16
            (((g1 ++ (g2 ++ (g3 ++ (g4 ++ g5)))).drop (2 * i)).take 2))) i
          = [(g1 ++ (g2 ++ (g3 ++ (g4 ++ g5)))).getD (2 * i) '0',
             (g1 ++ (g2 ++ (g3 ++ (g4 ++ g5)))).getD (2 * i + 1) '0'] := by
      intro i hi
      have hi16 : i < 16 := List.mem_range.mp hi
      have hb1 : 2 * i < (g1 ++ (g2 ++ (g3 ++ (g4 ++ g5)))).length := by omega
      have hb2 : 2 * i + 1 < (g1 ++ (g2 ++ (g3 ++ (g4 ++ g5)))).length := by omega
      have hx1 : isLowerHexDigit ((g1 ++ (g2 ++ (g3 ++ (g4 ++ g5)))).getD (2 * i) '0')
          = true := by
        rw [List.getD_eq_getElem _ _ hb1]
        exact hexhex _ (List.getElem_mem _)
      have hx2 : isLowerHexDigit ((g1 ++ (g2 ++ (g3 ++ (g4 ++ g5)))).getD (2 * i + 1) '0')
          = true := by
        rw [List.getD_eq_getElem _ _ hb2]
        exact hexhex _ (List.getElem_mem _)
      obtain ⟨i1, e1⟩ := isLowerHexDigit_surj hx1
      obtain ⟨i2, e2⟩ := isLowerHexDigit_surj hx2
      simp only [Function.comp]
      rw [drop_take_two _ _ '0' hb2, e1, e2]
      exact pair_roundtrip i1 i2
    rw [List.map_congr_left hpoint]
    exact pairs_flatten _ 16 '0' (by rw [hexlen])
  unfold uuidStringToBytes uuidBytesToString
  rw [hfil]
  dsimp only
  rw [hflatten]
  have e_take8 : (g1 ++ (g2 ++ (g3 ++ (g4 ++ g5)))).take 8 = g1 := by
    rw [← l1, List.take_left]
  have e_drop8 : (g1 ++ (g2 ++ (g3 ++ (g4 ++ g5)))).drop 8 = g2 ++ (g3 ++ (g4 ++ g5)) := by
    rw [← l1, List.drop_left]
  have e_drop12 : (g1 ++ (g2 ++ (g3 ++ (g4 ++ g5)))).drop 12 = g3 ++ (g4 ++ g5) := by
    rw [show (12 : Nat) = 8 + 4 from rfl, ← List.drop_drop, e_drop8, ← l2, List.drop_left]
  have e_drop16 : (g1 ++ (g2 ++ (g3 ++ (g4 ++ g5)))).drop 16 = g4 ++ g5 := by
    rw [show (16 : Nat) = 12 + 4 from rfl, ← List.drop_drop, e_drop12, ← l3, List.drop_left]
  have e_drop20 : (g1 ++ (g2 ++ (g3 ++ (g4 ++ g5)))).drop 20 = g5 := by
    rw [show (20 : Nat) = 16 + 4 from rfl, ← List.drop_drop, e_drop16, ← l4, List.drop_left]
  have e_t2 : (g2 ++ (g3 ++ (g4 ++ g5))).take 4 = g2 := by
    rw [← l2]
    exact List.take_left _ _
  have e_t3 : (g3 ++ (g4 ++ g5)).take 4 = g3 := by
    rw [← l3]
    exact List.take_left _ _
  have e_t4 : (g4 ++ g5).take 4 = g4 := by
    rw [← l4]
    exact List.take_left _ _
  rw [e_take8, e_drop8, e_drop12, e_drop16, e_drop20, e_t2, e_t3, e_t4]
  simp

theorem string_to_bytes_to_string (s : List Char) (h : isCanonicalUuid s = true) :
    uuidBytesToString (uuidStringToBytes s) = s := by
  rw [isCanonicalUuid] at h
  obtain ⟨u, hu⟩ := Option.isSome_iff_exists.mp h
  simp only [bind, Option.bind_eq_some] at hu
  obtain ⟨s1, he1, hu⟩ := hu
  obtain ⟨s2, he2, hu⟩ := hu
  obtain ⟨s3, he3, hu⟩ := hu
  obtain ⟨s4, he4, hu⟩ := hu
  obtain ⟨s5, he5, hu⟩ := hu
  obtain ⟨s6, he6, hu⟩ := hu
  obtain ⟨s7, he7, hu⟩ := hu
  obtain ⟨s8, he8, hu⟩ := hu
  obtain ⟨s9, he9, hu⟩ := hu
  have hs9 : s9 = [] := by
    by_cases he : s9.isEmpty
    · exact List.isEmpty_iff.mp he
    · simp [he] at hu
  subst hs9
  obtain ⟨g1, rfl, hg1len, hg1hex⟩ := hexSeg_some he1
  obtain rfl := expectHyphen_some he2
  obtain ⟨g2, rfl, hg2len, hg2hex⟩ := hexSeg_some he3
  obtain rfl := expectHyphen_some he4
  obtain ⟨g3, rfl, hg3len, hg3hex⟩ := hexSeg_some he5
  obtain rfl := expectHyphen_some he6
  obtain ⟨g4, rfl, hg4len, hg4hex⟩ := hexSeg_some he7
  obtain rfl := expectHyphen_some he8
  obtain ⟨g5, rfl, hg5len, hg5hex⟩ := hexSeg_some he9
  rw [List.append_nil]
  exact segments_roundtrip g1 g2 g3 g4 g5 hg1len hg2len hg3len hg4len hg5len
    hg1hex hg2hex hg3hex hg4hex hg5hex

/-- C4: UUID conversion round-trips — for every 16-byte array `b`,
`uuidStringToBytes (uuidBytesToString b) = b` and the produced text has
the canonical lowercase hyphenated-hex 8-4-4-4-12 shape (zero-padded
two-digit hex per byte, in byte order); and for every canonical string
`s`, `uuidBytesToString (uuidStringToBytes s) = s`. -/
theorem c4_uuid_conversion_roundtrip :
    (∀ b : List Nat, b.length = 16 → (∀ x ∈ b, x < 256) →
      uuidStringToBytes (uuidBytesToString b) = b ∧
      isCanonicalUuid (uuidBytesToString b) = true) ∧
    (∀ s : List Char, isCanonicalUuid s = true →
      uuidBytesToString (uuidStringToBytes s) = s) :=
  ⟨fun b hl hb => ⟨bytes_to_string_to_bytes b hl hb, bytes_to_string_canonical b hl⟩,
   fun s hs => string_to_bytes_to_string s hs⟩

/-- Witness for C4, at the README's example UUID
`550e8400-e29b-41d4-a716-446655440000` and its byte form. -/
theorem c4_uuid_conversion_roundtrip_witness :
    uuidStringToBytes (uuidBytesToString
        [85, 14, 132, 0, 226, 155, 65, 212, 167, 22, 68, 102, 85, 68, 0, 0])
      = [85, 14, 132, 0, 226, 155, 65, 212, 167, 22, 68, 102, 85, 68, 0, 0] ∧
    uuidBytesToString (uuidStringToBytes
        ['5', '5', '0', 'e', '8', '4', '0', '0', '-', 'e', '2', '9', 'b', '-',
         '4', '1', 'd', '4', '-', 'a', '7', '1', '6', '-', '4', '4', '6', '6',
         '5', '5', '4', '4', '0', '0', '0', '0'])
      = ['5', '5', '0', 'e', '8', '4', '0', '0', '-', 'e', '2', '9', 'b', '-',
         '4', '1', 'd', '4', '-', 'a', '7', '1', '6', '-', '4', '4', '6', '6',
         '5', '5', '4', '4', '0', '0', '0', '0'] :=
  ⟨(c4_uuid_conversion_roundtrip.1
      [85, 14, 132, 0, 226, 155, 65, 212, 167, 22, 68, 102, 85, 68, 0, 0]
      (by decide) (by decide)).1,
   c4_uuid_conversion_roundtrip.2
      ['5', '5', '0', 'e', '8', '4', '0', '0', '-', 'e', '2', '9', 'b', '-',
       '4', '1', 'd', '4', '-', 'a', '7', '1', '6', '-', '4', '4', '6', '6',
       '5', '5', '4', '4', '0', '0', '0', '0'] (by decide)⟩

end Voicevox
